import Mathlib

/-!
# Verification development for the IDAES example-notebook repository

The repository consists of Jupyter notebooks (MatOpt materials-design
examples and RIPE kinetics examples).  Each notebook is a short Python
script wiring together calls into the external `idaes.apps.matopt` /
`idaes.apps.ripe` libraries.

We give a shallow embedding of these scripts:

* a small statement language (`Stmt`) mirroring the Python constructs the
  notebooks use (assignments, expression statements, `try`/`except`,
  `if`/`while`/`for`, `print`, imports);
* one `Notebook` value per notebook document, transcribed cell by cell
  from the source (source files hold one or more notebook documents
  separated by document markers; every document is transcribed);
* structural extraction functions (library calls, guarded solve calls,
  file reads/writes) used by the structural claims;
* an interpreter `exec` over an `Oracle` abstracting the behaviour of the
  external libraries (return values, raised exceptions, data-dependent
  branch/loop outcomes), used by the semantic claims;
* exact functional models of the two genuinely computational fragments:
  the site-partition list comprehensions (`CoreLayers` etc.) and the
  RIPE error-maximization-sampling refinement loop.

Transcription conventions (uniform across all notebooks):

* The outermost call of a statement whose callee is a domain library
  (matopt, ripe, isotsim), a file-I/O routine (`toPDB`, `toCFG`,
  `np.genfromtxt`, `ZipFile`, `loadFromPDBs`), `deepcopy`, or
  `np.random.seed` is recorded as `Expr.call` with its argument texts;
  nested constructor expressions (e.g. `Atom("Pt")`, rule objects) are
  kept as argument text of the outer call.
* Pure Python computations (arithmetic, list comprehensions, numpy array
  construction on in-memory data) are recorded as `Expr.pure` carrying
  the source text; they raise nothing and call no library.
* Conditions over library data (`if D is not None`, comparisons against
  library-returned arrays) branch on a variable (`Stmt.ifTruthy`) when
  the condition is a variable none-test/truthiness test, and otherwise
  consult the oracle (`Stmt.ifData`, `Stmt.whileS`, `Stmt.forData`).
-/

set_option maxRecDepth 100000

/-- Does the character list `a` occur as a suffix of `b`?  (A
kernel-reducible suffix test; `String.endsWith` does not reduce.) -/
def sfx (a b : List Char) : Bool :=
  decide (a.length ≤ b.length) && decide (b.drop (b.length - a.length) = a)

/-- Does the string `s` end with `suffix`? -/
def strEnds (s suffix : String) : Bool := sfx suffix.data s.data

/-- An argument of a recorded library call: keyword name (`""` for a
positional argument), the source text of the value, and whether the value
is a literal scalar constant in the source (a number or string literal). -/
structure Arg where
  kw : String
  val : String
  lit : Bool
  deriving DecidableEq, Repr

/-- The except-clause kind of a `try` statement: a bare `except:` or a
named `except <cls>:`. -/
inductive Guard where
  | bare
  | named (cls : String)
  deriving DecidableEq, Repr

/-- Right-hand sides / expression statements.  `pure` is a library-free
Python expression (recorded by its source text), `noneE` is the literal
`None`, and `call` is an external library call. -/
inductive Expr where
  | pure (src : String)
  | noneE
  | call (fn : String) (args : List Arg)
  deriving DecidableEq, Repr

/-- Statements of the notebook scripts. -/
inductive Stmt where
  | skip
  | seq (a b : Stmt)
  | importS (module : String)
  | assign (x : String) (e : Expr)
  | exprS (e : Expr)
  | printS (msg : String)
  | tryS (body : Stmt) (g : Guard) (handler : Stmt)
  | ifTruthy (x : String) (body : Stmt)
  | ifData (cond : String) (body : Stmt)
  | ifDataElse (cond : String) (thn : Stmt) (els : Stmt)
  | whileS (cond : String) (body : Stmt)
  | forData (iter : String) (body : Stmt)
  | forN (n : Nat) (body : Stmt)
  deriving DecidableEq, Repr

/-- A sequential block of statements. -/
def bl (l : List Stmt) : Stmt := l.foldr Stmt.seq Stmt.skip

/-- A notebook document: its name and its code cells, in order, as one
statement block. -/
structure Notebook where
  name : String
  stmts : Stmt
  deriving DecidableEq, Repr

/-- Positional argument whose value is a non-literal expression. -/
def pa (v : String) : Arg := ⟨"", v, false⟩

/-- Positional argument whose value is a literal constant. -/
def pl (v : String) : Arg := ⟨"", v, true⟩

/-- Keyword argument with a literal scalar value. -/
def kl (k v : String) : Arg := ⟨k, v, true⟩

/-- Keyword argument with a non-literal value. -/
def ka (k v : String) : Arg := ⟨k, v, false⟩

/-- The fallback message printed by the solve-call exception handlers. -/
def fallbackMsg : String := "MaOpt can not find usable solver (CPLEX or NEOS-CPLEX)"

/-! ## Notebook transcriptions -/

/-- `idaes_examples/nb/surrogates/ripe/clc_nb_src.ipynb`, document 0:
chemical-looping-combustion kinetics identification with RIPE. -/
def clc_nb : Notebook :=
  { name := "clc"
    stmts := bl [
      -- cell 2
      .importS "idaes.apps.ripe",
      .importS "numpy",
      .importS "idaes.apps.ripe.mechs",
      .exprS (.call "np.random.seed" [pl "20"]),
      .assign "data" (.call "np.genfromtxt" [pl "clc.csv", kl "delimiter" ","]),
      .assign "t" (.pure "data[:, 0]"),
      .assign "xdata" (.pure "data[:, 1]"),
      .assign "stoich" (.pure "[1]"),
      -- cell 4
      .assign "clc_mechs" (.pure "[mechs.randomnuc, mechs.powerlawp5, mechs.powerlaw2, mechs.powerlaw3, mechs.powerlaw4, mechs.avrami2, mechs.avrami3, mechs.avrami4, mechs.avrami5, mechs.ptompkins, mechs.jander, mechs.antijander, mechs.valensi, mechs.parabolic, mechs.gb3d, mechs.zlt, mechs.grain]"),
      -- cell 6
      .assign "results" (.call "ripe.ripemodel"
        [pa "xdata", ka "stoichiometry" "stoich", ka "mechanisms" "clc_mechs",
         ka "time" "t"])
      -- cell 7 is empty
    ] }

/-- `idaes_examples/nb/matopt/monometallic_nanocluster_design_src.ipynb`,
document 0: monometallic nanocluster design. -/
def monometallic_nb : Notebook :=
  { name := "monometallic_nanocluster_design"
    stmts := bl [
      -- cell 3
      .importS "numpy",
      .importS "math.sqrt",
      -- cell 5
      .importS "idaes.apps.matopt",
      -- cell 7
      .assign "Lat" (.call "FCCLattice" [kl "IAD" "2.770"]),
      -- cell 9
      .assign "Canv" (.call "Canvas" []),
      .exprS (.call "Canv.addLocation" [pa "np.array([0, 0, 0], dtype=float)"]),
      .exprS (.call "Canv.addShells" [pl "2", pa "Lat.getNeighbors"]),
      -- cell 11
      .assign "Atoms" (.pure "[Atom(\"Pt\")]"),
      .assign "D" (.call "Design" [pa "Canv", pa "Atom(\"Pt\")"]),
      .exprS (.call "D.toPDB" [pl "canvas_sites.pdb"]),
      -- cell 13
      .assign "N" (.pure "22"),
      .assign "m" (.call "MatOptModel" [pa "Canv", pa "Atoms"]),
      -- cell 16
      .assign "Vals" (.pure "[sqrt(CN) for CN in range(0, 13)]"),
      .assign "BPs" (.pure "[CN for CN in range(0, 13)]"),
      .exprS (.call "m.addSitesDescriptor"
        [pl "CNRi", ka "bounds" "(0, sqrt(12))", ka "integer" "False",
         ka "rules" "PiecewiseLinear(values=Vals, breakpoints=BPs, input_desc=m.Ci)"]),
      -- cell 18
      .exprS (.call "m.addGlobalDescriptor"
        [pl "Ecoh", ka "rules" "EqualTo(SumSites(desc=m.CNRi, coefs=(1 / (N * sqrt(12)))))"]),
      -- cell 20
      .exprS (.call "m.addGlobalDescriptor"
        [pl "Size", ka "bounds" "(N, N)", ka "rules" "EqualTo(SumSites(desc=m.Yi))"]),
      -- cell 22
      .exprS (.pure "help(MatOptModel.maximize)"),
      .exprS (.pure "help(MatOptModel.optimize)"),
      -- cell 23
      .assign "D" .noneE,
      .tryS (.assign "D" (.call "m.maximize" [pa "m.Ecoh", kl "tilim" "100"]))
        .bare (.printS fallbackMsg),
      -- cell 25: `if D is not None:`
      .ifTruthy "D" (.exprS (.call "D.toPDB" [pl "result.pdb"]))
    ] }

/-- `src/unnamed/part_000`, document 0: InAs semiconductor nanowire
design. -/
def nanowire_nb : Notebook :=
  { name := "nanowire_design"
    stmts := bl [
      -- cell 3
      .importS "numpy",
      .importS "copy.deepcopy",
      -- cell 5
      .importS "idaes.apps.matopt",
      -- cell 7
      .assign "IAD" (.pure "3.7265"),
      .assign "orientation" (.pure "0001"),
      .assign "lattice" (.call "WurtziteLattice.alignedWith" [pa "IAD", pa "orientation"]),
      -- cell 9
      .assign "nAtomRadius" (.pure "6"),
      .assign "nAtomUnitLength" (.pure "2"),
      .assign "origin" (.pure "np.zeros(3, dtype=float)"),
      .assign "axisDirection" (.pure "np.array([0, 0, 1], dtype=float)"),
      -- radius = lattice.getShellSpacing(orientation) * (nAtomRadius - 1)
      .assign "radius" (.call "lattice.getShellSpacing" [pa "orientation"]),
      -- height = lattice.getLayerSpacing(orientation)
      --        * lattice.getUniqueLayerCount(orientation) * nAtomUnitLength
      .exprS (.call "lattice.getLayerSpacing" [pa "orientation"]),
      .assign "height" (.call "lattice.getUniqueLayerCount" [pa "orientation"]),
      .assign "shape" (.call "Cylinder" [pa "origin", pa "radius", pa "height", pa "axisDirection"]),
      .exprS (.call "shape.shift" [pa "-0.001 * shape.Vh"]),
      .assign "tiling" (.call "LinearTiling.fromCylindricalShape" [pa "shape"]),
      -- cell 11
      .assign "canvas" (.call "Canvas.fromLatticeAndShape" [pa "lattice", pa "shape"]),
      .exprS (.call "canvas.makePeriodic" [pa "tiling", pa "lattice.getNeighbors"]),
      -- cell 13
      .assign "design" (.call "Design" [pa "canvas"]),
      .exprS (.call "lattice.setDesign" [pa "design", pa "Atom(\"In\")", pa "Atom(\"As\")"]),
      .exprS (.call "design.toPDB" [pl "canvas.pdb"]),
      -- cell 15
      .assign "m" (.call "MatOptModel" [pa "canvas", pa "[Atom(\"\")]"]),
      -- cell 18 (the comprehension is modelled exactly as `CoreLayers` below)
      .assign "coreRatio" (.pure "0.2"),
      .assign "CoreLayers" (.pure "[i for i, p in enumerate(canvas.Points) if p[0] ** 2 + p[1] ** 2 < (coreRatio * radius) ** 2]"),
      .exprS (.call "m.Yi.rules.append" [pa "FixedTo(1, sites=CoreLayers)"]),
      -- cell 20
      .assign "CanvasMinusCoreLayers" (.pure "[i for i, p in enumerate(canvas.Points) if i not in CoreLayers]"),
      .assign "NeighborsInside" (.pure "[[j for j in canvas.NeighborhoodIndexes[i] if (j is not None and canvas.Points[j][0] ** 2 + canvas.Points[j][1] ** 2 < p[0] ** 2 + p[1] ** 2 - DBL_TOL)] for i, p in enumerate(canvas.Points)]"),
      .exprS (.call "m.Yi.rules.append"
        [pa "ImpliesNeighbors(concs=(m.Yi, GreaterThan(1)), sites=CanvasMinusCoreLayers, neighborhoods=NeighborsInside)"]),
      -- cell 22
      .assign "CNBounds" (.pure "(0, 4)"),
      .assign "p" (.pure "-0.22479870084561238"),
      .assign "q" (.pure "-0.9092660150083058"),
      .assign "alpha" (.pure "-0.3684513"),
      .assign "BPs" (.pure "list(range(CNBounds[0], CNBounds[1] + 1))"),
      .assign "Vals" (.pure "[(p * pow(cn, 1 - alpha) - q * cn) for cn in BPs]"),
      .exprS (.call "m.addSitesDescriptor"
        [pl "Vi", ka "bounds" "(min(Vals), max(Vals))",
         ka "rules" "PiecewiseLinear(values=Vals, breakpoints=BPs, input_desc=m.Ci, con_type=\"UB\")"]),
      -- cell 24
      .assign "size" (.pure "216"),
      .exprS (.call "m.addGlobalDescriptor"
        [pl "Ecoh", ka "rules" "EqualTo(SumSites(desc=m.Vi, coefs=(1.0 / size)))"]),
      -- cell 26
      .exprS (.call "m.addGlobalDescriptor"
        [pl "Size", ka "bounds" "(size, size)", ka "rules" "EqualTo(SumSites(desc=m.Yi))"]),
      -- cell 28
      .assign "optimalDesign" .noneE,
      .tryS (.assign "optimalDesign"
          (.call "m.maximize" [pa "m.Ecoh", kl "tilim" "360", kl "solver" "cplex"]))
        .bare (.printS fallbackMsg),
      -- cell 30: `if optimalDesign is not None:`
      .ifTruthy "optimalDesign" (bl [
        .forData "i, p in enumerate(optimalDesign.Canvas.Points)" (
          .ifData "optimalDesign.Contents[i] is not None" (
            .ifDataElse "lattice.isASite(p)"
              (.exprS (.call "optimalDesign.setContent" [pa "i", pa "Atom(\"In\")"]))
              (.ifData "lattice.isBSite(p)"
                (.exprS (.call "optimalDesign.setContent" [pa "i", pa "Atom(\"As\")"]))))),
        .exprS (.call "optimalDesign.toPDB" [pl "result.pdb"]),
        .assign "periodicDesign" (.call "deepcopy" [pa "optimalDesign"]),
        .forN 4 (.forData "i, p in enumerate(optimalDesign.Canvas.Points)"
          (.exprS (.call "periodicDesign.add" [pa "p + (k + 1) * shape.Vh", pa "optimalDesign.Contents[i]"]))),
        .forN 4 (.forData "i, p in enumerate(optimalDesign.Canvas.Points)"
          (.exprS (.call "periodicDesign.add" [pa "p - (k + 1) * shape.Vh", pa "optimalDesign.Contents[i]"]))),
        .exprS (.call "periodicDesign.toPDB" [pl "periodic_result.pdb"])
      ])
    ] }

/-- `idaes_examples/nb/matopt/monometallic_nanocluster_design_src.ipynb`,
document 1: Pt surface design (the surface-design example). -/
def surface_nb : Notebook :=
  { name := "surface_design"
    stmts := bl [
      -- cell 3
      .importS "numpy",
      .importS "copy.deepcopy",
      -- cell 5
      .importS "idaes.apps.matopt",
      -- cell 7
      .assign "IAD" (.pure "2.828427"),
      .assign "Lat" (.call "FCCLattice.alignedWith111" [pa "IAD"]),
      -- cell 9
      .assign "nUnitCellsOnEdge" (.pure "4"),
      .assign "nLayers" (.pure "6"),
      .assign "a" (.pure "nUnitCellsOnEdge * IAD"),
      .assign "b" (.pure "a"),
      .assign "c" (.pure "nLayers * Lat.FCC111LayerSpacing"),
      .assign "alpha" (.pure "np.pi / 2"),
      .assign "beta" (.pure "np.pi / 2"),
      .assign "gamma" (.pure "np.pi / 3"),
      .assign "S" (.call "Parallelepiped.fromEdgesAndAngles"
        [pa "a", pa "b", pa "c", pa "alpha", pa "beta", pa "gamma"]),
      .exprS (.call "S.shift" [pa "np.array([-0.01 * a, -0.01 * b, -0.01 * c])"]),
      .assign "T" (.call "PlanarTiling" [pa "S"]),
      -- cell 11
      .assign "Canv" (.call "Canvas.fromLatticeAndTilingScan" [pa "Lat", pa "T"]),
      -- cell 13
      .assign "D" (.call "Design" [pa "Canv", pa "Atom(\"Pt\")"]),
      .exprS (.call "D.toPDB" [pl "undefected.pdb"]),
      .exprS (.call "D.toCFG" [pl "undefected.cfg", kl "GS" "1.0", ka "BBox" "S"]),
      -- cell 15
      .assign "Atoms" (.pure "[Atom(\"Pt\")]"),
      .assign "TargetGCN" (.pure "8.0"),
      .assign "CNsurfMin" (.pure "3"),
      .assign "CNsurfMax" (.pure "9"),
      .assign "TileSizeSquared" (.pure "nUnitCellsOnEdge**2"),
      .assign "UndefectedSurfE" (.pure "0.129758"),
      .assign "maxSurfE" (.pure "999"),
      .assign "CatWeight" (.pure "1.0"),
      -- cell 17
      .assign "m" (.call "MatOptModel" [pa "Canv", pa "Atoms"]),
      -- cell 20 (comprehensions modelled exactly as `CanvTwoBotLayers` below)
      .assign "CanvTwoBotLayers" (.pure "[i for i in range(len(Canv)) if Canv.Points[i][2] < 1.5 * Lat.FCC111LayerSpacing]"),
      .assign "CanvMinusTwoBotLayers" (.pure "[i for i in range(len(Canv)) if i not in CanvTwoBotLayers]"),
      .assign "OneSiteInTopLayer" (.pure "[min([i for i in range(len(Canv)) if Canv.Points[i][2] > (nLayers - 1.5) * Lat.FCC111LayerSpacing])]"),
      .exprS (.call "m.Yi.rules.append" [pa "FixedTo(1, sites=OneSiteInTopLayer)"]),
      .exprS (.call "m.Yi.rules.append" [pa "FixedTo(1, sites=CanvTwoBotLayers)"]),
      -- cell 22
      .assign "NeighborsBelow" (.pure "[[j for j in Canv.NeighborhoodIndexes[i] if (j is not None and Canv.Points[j][2] < Canv.Points[i][2] - DBL_TOL)] for i in range(len(Canv))]"),
      .exprS (.call "m.Yi.rules.append"
        [pa "ImpliesNeighbors(concs=(m.Yi, GreaterThan(1)), sites=CanvMinusTwoBotLayers, neighborhoods=NeighborsBelow)"]),
      -- cell 24
      .exprS (.call "m.addSitesDescriptor"
        [pl "GCNi", ka "bounds" "(0, 12)", ka "integer" "False",
         ka "rules" "EqualTo(SumNeighborSites(desc=m.Ci, coefs=1 / 12))",
         ka "sites" "CanvMinusTwoBotLayers"]),
      .exprS (.call "m.addSitesDescriptor"
        [pl "IdealSitei", ka "binary" "True",
         ka "rules" "[Implies(concs=(m.Ci, GreaterThan(3))), Implies(concs=(m.Ci, LessThan(9))), Implies(concs=(m.GCNi, EqualTo(TargetGCN)))]",
         ka "sites" "CanvMinusTwoBotLayers"]),
      .exprS (.call "m.addGlobalDescriptor"
        [pl "Activity", ka "bounds" "(0, 1)",
         ka "rules" "EqualTo(SumSites(m.IdealSitei, coefs=1 / TileSizeSquared))"]),
      -- cell 26
      .assign "EiVals" (.pure "[0, -0.04293 * 3 + 0.41492, -0.04293 * 10 + 0.41492, 0.05179 * 11 - 0.62148, 0]"),
      .assign "EiBPs" (.pure "[0, 3, 10, 11, 12]"),
      .exprS (.call "m.addSitesDescriptor"
        [pl "Ei", ka "rules" "PiecewiseLinear(values=EiVals, breakpoints=EiBPs, input_desc=m.Ci)",
         ka "sites" "CanvMinusTwoBotLayers"]),
      .exprS (.call "m.addGlobalDescriptor"
        [pl "Esurf", ka "bounds" "(None, maxSurfE)",
         ka "rules" "EqualTo(SumSites(m.Ei, coefs=1 / TileSizeSquared, offset=0.101208))"]),
      .exprS (.call "m.addGlobalDescriptor"
        [pl "Stability", ka "rules" "EqualTo(LinearExpr(m.Esurf, 1 / UndefectedSurfE))"]),
      -- cell 28
      .exprS (.call "m.addGlobalDescriptor"
        [pl "ActAndStab",
         ka "rules" "EqualTo(LinearExpr(descs=[m.Stability, m.Activity], coefs=[-(1 - CatWeight), CatWeight]))"]),
      -- cell 30
      .assign "D" .noneE,
      .tryS (.assign "D" (.call "m.maximize" [pa "m.ActAndStab", kl "tilim" "360"]))
        .bare (.printS fallbackMsg),
      -- cell 32
      .ifTruthy "D" (bl [
        .forData "i in m.IdealSitei.keys()" (
          .ifData "m.IdealSitei.values[i] > 0.5"
            (.exprS (.call "D.setContent" [pa "i", pa "Atom(\"S\")"]))),
        .exprS (.call "D.toPDB" [pl "result.pdb"]),
        .assign "PeriodicD" (.call "T.replicateDesign" [pa "D", pl "4"]),
        .assign "PeriodicS" (.call "deepcopy" [pa "S"]),
        .exprS (.call "PeriodicS.scale" [pa "np.array([4, 4, 1])"]),
        .exprS (.call "PeriodicD.toCFG" [pl "periodic_result.cfg", ka "BBox" "PeriodicS"])
      ])
    ] }

/-- `idaes_examples/nb/matopt/monometallic_nanocluster_design_src.ipynb`,
document 2: RIPE isothermal CSTR kinetics with error-maximization
sampling.  The refinement-loop body is additionally modelled exactly by
`refinementStep` below. -/
def isotCstr_nb : Notebook :=
  { name := "ripe_isothermal_cstr"
    stmts := bl [
      -- cell 2
      .importS "pyomo.environ",
      .importS "idaes.apps.ripe",
      .importS "numpy",
      .importS "random",
      .importS "isotsim",
      .exprS (.call "np.random.seed" [pl "20"]),
      .assign "noise" (.pure "0.1"),
      .assign "ns" (.pure "5"),
      .assign "lb_conc" (.pure "[0, 0, 0, 0, 0]"),
      .assign "ub_conc" (.pure "[10, 10, 0, 0, 0]"),
      .assign "cdata0" (.pure "[[1, 1, 0, 0, 0], [10, 10, 0, 0, 0]]"),
      .assign "cdata" (.call "isotsim.sim" [pa "cdata0"]),
      .assign "nd" (.pure "len(cdata0)"),
      .assign "sigma" (.pure "np.multiply(noise**2, np.array(cdata))"),
      -- cell 4
      .assign "stoich" (.pure "[[-1, -1, 1, 0, 0], [0, -1, -1, 1, 0], [-1, 0, 0, -1, 1], [-1, -2, 0, 1, 0], [-2, -2, 0, 0, 1], [-1, -1, -1, 0, 1], [-2, -1, 1, -1, 1], [1, 0, -1, -1, 1], [-3, -3, 1, 0, 1], [-3, -4, 0, 1, 1], [-2, -3, 1, 1, 0], [-4, -5, 1, 1, 1]]"),
      -- cell 6
      .assign "rxn_mechs" (.pure "[[\"all\", \"massact\"]]"),
      -- cell 8
      .assign "results" (.call "ripe.ripemodel"
        [pa "cdata", ka "stoich" "stoich", ka "mechanisms" "rxn_mechs",
         ka "x0" "cdata0", kl "hide_output" "False", ka "sigma" "sigma",
         kl "deltaterm" "0", kl "expand_output" "True"]),
      -- cell 10 (`[new_points, err] = ripe.ems(...)`)
      .assign "new_points_err" (.call "ripe.ems"
        [pa "results", pa "isotsim.sim", pa "lb_conc", pa "ub_conc", pl "5",
         ka "x" "cdata", ka "x0" "cdata0"]),
      .printS "New Point",
      .printS "Error",
      .assign "new_res" (.call "isotsim.sim" [pa "new_points"]),
      .printS "New Result",
      -- cell 12
      .assign "ite" (.pure "0"),
      .whileS "any(err > [2 * noise * s for s in new_res])" (bl [
        .printS "Which concentrations violate error (True=violation) : ",
        .assign "results" (.pure "dict()"),
        .assign "ite" (.pure "ite += 1"),
        .assign "new_cdata0" (.pure "np.zeros([nd + ite, ns])"),
        .assign "new_cdata" (.pure "np.zeros([nd + ite, ns])"),
        .exprS (.pure "new_cdata0[:-1][:] = cdata0[:][:]"),
        .exprS (.pure "new_cdata[:-1][:] = cdata[:][:]"),
        .exprS (.pure "new_cdata0[-1][:] = new_points[:]"),
        .assign "res" (.call "isotsim.sim" [pa "new_points"]),
        .forData "j in range(len(res))" (.exprS (.pure "new_cdata[-1][j] = res[j]")),
        .assign "sigma" (.pure "np.multiply(noise**2, np.array(new_cdata))"),
        .assign "results" (.call "ripe.ripemodel"
          [pa "new_cdata", ka "stoich" "stoich", ka "mechanisms" "rxn_mechs",
           ka "x0" "new_cdata0", ka "sigma" "sigma", kl "expand_output" "True"]),
        .assign "new_points_err" (.call "ripe.ems"
          [pa "results", pa "isotsim.sim", pa "lb_conc", pa "ub_conc", pl "5",
           ka "x" "cdata", ka "x0" "cdata0"]),
        .assign "new_res" (.call "isotsim.sim" [pa "new_points"]),
        .assign "cdata0" (.pure "new_cdata0"),
        .assign "cdata" (.pure "new_cdata")
      ]),
      -- cell 14
      .assign "results" (.call "ripe.ripemodel"
        [pa "cdata", ka "stoich" "stoich", ka "mechanisms" "rxn_mechs",
         ka "x0" "cdata0", ka "sigma" "sigma", kl "expand_output" "False"]),
      .printS "results"
    ] }

/-- `idaes_examples/nb/matopt/metal_oxide_bulk_design_src.ipynb`,
document 0: BaFeIn oxide bulk design. -/
def metalOxide_nb : Notebook :=
  { name := "metal_oxide_bulk_design"
    stmts := bl [
      -- cell 3
      .importS "numpy",
      .importS "idaes.apps.matopt",
      -- cell 5
      .assign "A" (.pure "4.0"),
      .assign "B" (.pure "4.0"),
      .assign "C" (.pure "4.0"),
      .assign "Lat" (.call "PerovskiteLattice" [pa "A", pa "B", pa "C"]),
      -- cell 7
      .assign "nUnitCellsOnEdge" (.pure "2"),
      .assign "S" (.call "RectPrism"
        [pa "nUnitCellsOnEdge * A", pa "nUnitCellsOnEdge * B", pa "nUnitCellsOnEdge * C"]),
      .exprS (.call "S.shift" [pa "np.array([-0.01, -0.01, -0.01])"]),
      .assign "T" (.call "CubicTiling" [pa "S"]),
      -- cell 9
      .assign "Canv" (.call "Canvas.fromLatticeAndTilingScan" [pa "Lat", pa "T"]),
      .assign "Atoms" (.pure "[Atom(\"Ba\"), Atom(\"Fe\"), Atom(\"In\"), Atom(\"O\")]"),
      -- cell 11 (the `with TemporaryDirectory() as ConfDir:` block is
      -- flattened; `ZipFile(...)` is chained with `.extractall(ConfDir)`)
      .importS "tempfile.TemporaryDirectory",
      .importS "zipfile.ZipFile",
      .assign "iDesiredConfs" (.pure "[394, 395, 396, 397, 398, 399, 400, 401, 68, 69, 70, 71, 162, 163, 164, 165, 166, 167, 168, 169]"),
      .assign "ConfDir" (.call "TemporaryDirectory" []),
      .exprS (.call "ZipFile" [pl "./confs.zip"]),
      .assign "ConfDesigns" (.call "loadFromPDBs"
        [pa "[str(i) + \".pdb\" for i in iDesiredConfs]", ka "folder" "ConfDir + \"/confs/\""]),
      .assign "Confs" (.pure "[Conf.Contents for Conf in ConfDesigns]"),
      -- cell 13
      .assign "Sites" (.pure "[i for i in range(len(Canv))]"),
      .assign "ASites" (.pure "[i for i in Sites if Lat.isASite(Canv.Points[i])]"),
      .assign "BSites" (.pure "[i for i in Sites if Lat.isBSite(Canv.Points[i])]"),
      .assign "OSites" (.pure "[i for i in Sites if Lat.isOSite(Canv.Points[i])]"),
      .assign "pctLocalLB, pctLocalUB" (.pure "0, 1"),
      .assign "pctGlobalLB, pctGlobalUB" (.pure "0.0, 0.3"),
      .assign "LocalBounds" (.pure "dict comprehension over OSites of rounded neighborhood bounds"),
      .assign "GlobalLB" (.pure "round(pctGlobalLB * len(BSites))"),
      .assign "GlobalUB" (.pure "round(pctGlobalUB * len(BSites))"),
      -- cell 15
      .assign "m" (.call "MatOptModel" [pa "Canv", pa "Atoms", pa "Confs"]),
      -- cell 18
      .exprS (.call "m.Yik.rules.append" [pa "FixedTo(1, sites=ASites, site_types=[Atom(\"Ba\")])"]),
      .exprS (.call "m.Yik.rules.append" [pa "FixedTo(1, sites=OSites, site_types=[Atom(\"O\")])"]),
      .exprS (.call "m.Yik.rules.append" [pa "FixedTo(0, sites=BSites, site_types=[Atom(\"Ba\"), Atom(\"O\")])"]),
      .exprS (.call "m.Yi.rules.append" [pa "FixedTo(1, sites=BSites)"]),
      -- cell 20
      .exprS (.call "m.addGlobalDescriptor"
        [pl "Activity", ka "rules" "EqualTo(SumSitesAndConfs(m.Zic, coefs=1 / len(OSites), sites_to_sum=OSites))"]),
      .exprS (.call "m.addGlobalTypesDescriptor"
        [pl "GlobalIndiumConc", ka "bounds" "(GlobalLB, GlobalUB)",
         ka "rules" "EqualTo(SumSites(m.Yik, site_types=[Atom(\"In\")], sites_to_sum=BSites))"]),
      .exprS (.call "m.addSitesTypesDescriptor"
        [pl "LocalIndiumConc", ka "bounds" "LocalBounds",
         ka "rules" "EqualTo(SumNeighborSites(m.Yik, sites=OSites, site_types=[Atom(\"In\")]))"]),
      -- cell 22
      .assign "D" .noneE,
      .tryS (.assign "D" (.call "m.maximize" [pa "m.Activity", kl "tilim" "360"]))
        .bare (.printS fallbackMsg),
      -- cell 24
      .ifTruthy "D" (bl [
        .forData "i, c in m.Zic.keys()" (
          .ifData "m.Zic.values[i, c] > 0.5"
            (.exprS (.call "D.setContent" [pa "i", pa "Atom(\"S\")"]))),
        .exprS (.call "D.toCFG" [pl "result.cfg", ka "BBox" "S"])
      ])
    ] }

/-- `idaes_examples/nb/matopt/bifunctional_surface_design_src.ipynb`,
document 0: bifunctional catalyst surface design. -/
def bifunctional_nb : Notebook :=
  { name := "bifunctional_surface_design"
    stmts := bl [
      -- cell 3
      .importS "copy.deepcopy",
      .importS "numpy",
      -- cell 5
      .importS "idaes.apps.matopt",
      -- cell 7
      .assign "IAD" (.pure "2.828"),
      .assign "Lat" (.call "FCCLattice.alignedWith111" [pa "IAD"]),
      -- cell 9
      .assign "nUnitCellsOnEdge" (.pure "8"),
      .assign "nLayers" (.pure "4"),
      .assign "a" (.pure "nUnitCellsOnEdge * IAD"),
      .assign "b" (.pure "a"),
      .assign "c" (.pure "nLayers * Lat.FCC111LayerSpacing"),
      .assign "alpha" (.pure "np.pi / 2"),
      .assign "beta" (.pure "np.pi / 2"),
      .assign "gamma" (.pure "np.pi / 3"),
      .assign "S" (.call "Parallelepiped.fromEdgesAndAngles"
        [pa "a", pa "b", pa "c", pa "alpha", pa "beta", pa "gamma"]),
      .exprS (.call "S.shift" [pa "np.array([-0.01 * a, -0.01 * b, -0.01 * c])"]),
      .assign "T" (.call "PlanarTiling" [pa "S"]),
      -- cell 11
      .assign "Canv" (.call "Canvas.fromLatticeAndTilingScan" [pa "Lat", pa "T"]),
      -- cell 13
      .assign "D" (.call "Design" [pa "Canv", pa "Atom(\"Pt\")"]),
      .exprS (.call "D.toPDB" [pl "canvas.pdb"]),
      .exprS (.call "D.toCFG" [pl "canvas.cfg", ka "BBox" "S"]),
      -- cell 15
      .assign "MotifCanvas" (.call "Canvas" []),
      .exprS (.call "MotifCanvas.addLocation"
        [pa "np.array([0, 0, 0], dtype=float)", kl "NNeighbors" "12"]),
      .exprS (.call "MotifCanvas.addShell" [pa "Lat.getNeighbors"]),
      .assign "Confs" (.pure "[[None] * len(MotifCanvas.NeighborhoodIndexes[0]) for _ in range(7)]"),
      .assign "iToSetNi" (.pure "[[3, 4, 5, 6, 7, 8], [3, 4, 5, 6], [4, 5, 6, 7], [5, 6, 7, 8], [6, 7, 8, 3], [7, 8, 3, 4], [8, 3, 4, 5]]"),
      .assign "iToSetPt" (.pure "[[9, 10, 11]] * 7 written out"),
      -- `for iConf, Conf in enumerate(Confs): ...` fills Confs with
      -- Atom("Ni") / Atom("Pt") entries; a fixed 7-iteration loop over
      -- in-memory data.
      .forN 7 (.exprS (.pure "Conf[i] = Atom(\"Ni\") for i in iToSetNi[iConf]; Conf[i] = Atom(\"Pt\") for i in iToSetPt[iConf]")),
      -- cell 17
      .assign "TypeAConfs" (.pure "[0]"),
      .assign "TypeBConfs" (.pure "[1, 2, 3, 4, 5, 6]"),
      .assign "LocsToFixPt" (.pure "[i for i in range(len(Canv)) if Canv.Points[i][2] < Lat.FCC111LayerSpacing * 2.5]"),
      .assign "LocsToExcludePt" (.pure "[i for i in range(len(Canv)) if i not in LocsToFixPt]"),
      .assign "CanvTwoBotLayers" (.pure "[i for i in range(len(Canv)) if Canv.Points[i][2] < Lat.FCC111LayerSpacing * 1.5]"),
      .assign "CanvMinusTwoBotLayers" (.pure "[i for i in range(len(Canv)) if i not in CanvTwoBotLayers]"),
      .assign "OneLocToFix" (.pure "[min(LocsToExcludePt)]"),
      .assign "TileSizeSquared" (.pure "nUnitCellsOnEdge**2"),
      .assign "CatNorm" (.pure "TileSizeSquared * 6.0"),
      .assign "UndefectedSurfE" (.pure "0.129758"),
      .assign "maxSurfE" (.pure "999"),
      .assign "CatWeight" (.pure "1.0"),
      .assign "Atoms" (.pure "[Atom(\"Ni\"), Atom(\"Pt\")]"),
      -- cell 19
      .assign "m" (.call "MatOptModel" [pa "Canv", pa "Atoms", pa "Confs"]),
      -- cell 22
      .exprS (.call "m.Yik.rules.append" [pa "FixedTo(1, sites=LocsToFixPt, site_types=[Atom(\"Pt\")])"]),
      .exprS (.call "m.Yik.rules.append" [pa "FixedTo(0, sites=LocsToExcludePt, site_types=[Atom(\"Pt\")])"]),
      -- cell 24
      .exprS (.call "m.Zic.rules.append" [pa "FixedTo(1, sites=OneLocToFix, confs=TypeAConfs)"]),
      .exprS (.call "m.Zic.rules.append" [pa "Implies(concs=(m.Yik, EqualTo(1, site_types=[Atom(\"Ni\")])))"]),
      .assign "SumAConfsExpr" (.call "SumConfs" [pa "m.Zic", ka "confs_to_sum" "TypeAConfs"]),
      .assign "SumBConfsExpr" (.call "SumConfs" [pa "m.Zic", ka "confs_to_sum" "TypeBConfs"]),
      .exprS (.call "m.addBondsDescriptor"
        [pl "SiteCombinations", ka "binary" "True",
         ka "rules" "ImpliesSiteCombination(Canv, (SumAConfsExpr, GreaterThan(1)), (SumBConfsExpr, GreaterThan(1)))"]),
      -- cell 26
      .exprS (.call "m.addGlobalDescriptor"
        [pl "Activity", ka "rules" "EqualTo(SumBonds(m.SiteCombinations, coefs=1 / CatNorm))"]),
      .assign "EiVals" (.pure "[0, -0.04293 * 3 + 0.41492, -0.04293 * 10 + 0.41492, 0.05179 * 11 - 0.62148, 0]"),
      .assign "EiBPs" (.pure "[0, 3, 10, 11, 12]"),
      .exprS (.call "m.addSitesDescriptor"
        [pl "Ei", ka "rules" "PiecewiseLinear(values=EiVals, breakpoints=EiBPs, input_desc=m.Ci)",
         ka "sites" "CanvMinusTwoBotLayers"]),
      .exprS (.call "m.addGlobalDescriptor"
        [pl "Esurf", ka "rules" "EqualTo(SumSites(m.Ei, coefs=1 / TileSizeSquared, offset=0.101208))"]),
      .exprS (.call "m.addGlobalDescriptor"
        [pl "Stability", ka "rules" "EqualTo(LinearExpr(m.Esurf, 1 / UndefectedSurfE))"]),
      -- cell 28
      .exprS (.call "m.addGlobalDescriptor"
        [pl "ActAndStab",
         ka "rules" "EqualTo(LinearExpr(descs=[m.Stability, m.Activity], coefs=[-(1 - CatWeight), CatWeight]))"]),
      -- cell 30
      .assign "D" .noneE,
      .tryS (.assign "D" (.call "m.maximize" [pa "m.ActAndStab", kl "tilim" "360"]))
        .bare (.printS fallbackMsg),
      -- cell 32
      .ifTruthy "D" (bl [
        .exprS (.call "D.toCFG" [pl "result.cfg", ka "BBox" "S"]),
        .assign "PeriodicD" (.call "T.replicateDesign" [pa "D", pl "4"]),
        .assign "PeriodicS" (.call "deepcopy" [pa "S"]),
        .exprS (.call "PeriodicS.scale" [pa "np.array([4, 4, 1])"]),
        .exprS (.call "PeriodicD.toCFG" [pl "periodic_result.cfg", ka "BBox" "PeriodicS"])
      ])
    ] }

/-- `idaes_examples/nb/matopt/bifunctional_surface_design_src.ipynb`,
document 1: bimetallic CuAg nanocluster design (two solve stages). -/
def bimetallic_nb : Notebook :=
  { name := "bimetallic_nanocluster_design"
    stmts := bl [
      -- cell 3
      .importS "numpy",
      .importS "math.sqrt",
      -- cell 5
      .importS "idaes.apps.matopt",
      -- cell 7
      .assign "Lat" (.call "FCCLattice" [kl "IAD" "1.0"]),
      .assign "Canv" (.call "Canvas" []),
      .exprS (.call "Canv.addLocation" [pa "np.array([0, 0, 0], dtype=float)"]),
      .exprS (.call "Canv.addShells" [pl "1", pa "Lat.getNeighbors"]),
      .assign "Atoms" (.pure "[Atom(\"Cu\")]"),
      .assign "N" (.pure "6"),
      .assign "m" (.call "MatOptModel" [pa "Canv", pa "Atoms"]),
      .assign "Vals" (.pure "[sqrt(CN) for CN in range(0, 13)]"),
      .assign "BPs" (.pure "[CN for CN in range(0, 13)]"),
      .exprS (.call "m.addSitesDescriptor"
        [pl "CNRi", ka "bounds" "(0, sqrt(12))", ka "integer" "False",
         ka "rules" "PiecewiseLinear(values=Vals, breakpoints=BPs, input_desc=m.Ci)"]),
      .exprS (.call "m.addGlobalDescriptor"
        [pl "Ecoh", ka "rules" "EqualTo(SumSites(desc=m.CNRi, coefs=(1 / (N * sqrt(12)))))"]),
      .exprS (.call "m.addGlobalDescriptor"
        [pl "Size", ka "bounds" "(N, N)", ka "rules" "EqualTo(SumSites(desc=m.Yi))"]),
      -- cell 8: note `except Exception as err:` and no fallback print
      .tryS (.assign "D" (.call "m.maximize" [pa "m.Ecoh", kl "tilim" "100"]))
        (.named "Exception") (.assign "D" .noneE),
      -- cell 10: `if D:  # may be None if CPLEX was not found`
      .assign "Canv" (.call "Canvas" []),
      .ifTruthy "D" (
        .forData "i in range(len(D))" (
          .ifData "D.Contents[i] is not None"
            (.exprS (.call "Canv.addLocation" [pa "D.Canvas.Points[i]"])))),
      .exprS (.call "Canv.setNeighborsFromFunc" [pa "Lat.getNeighbors"]),
      -- cell 12
      .assign "Atoms" (.pure "[Atom(\"Cu\"), Atom(\"Ag\")]"),
      .assign "CompBounds" (.pure "Atom(\"Cu\") maps to (3, 3), Atom(\"Ag\") maps to (3, 3)"),
      -- cell 14
      .assign "m" (.call "MatOptModel" [pa "Canv", pa "Atoms"]),
      -- cell 17
      .exprS (.call "m.Yi.rules.append" [pa "FixedTo(1.0)"]),
      -- cell 19: pure nested loops over Canv.NeighborhoodIndexes filling
      -- BEijCoefs from GklCoefs (no library call in the loop body)
      .assign "GklCoefs" (.pure "bond energy coefficients for CuCu CuAg AgAg AgCu"),
      .assign "BEijCoefs" (.pure "nested loops over Canv.NeighborhoodIndexes combining GklCoefs with 1 / sqrt(CNi) and 1 / sqrt(CNj)"),
      .exprS (.call "m.addBondsDescriptor"
        [pl "BEij", ka "rules" "EqualTo(SumBondTypes(m.Xijkl, coefs=BEijCoefs))",
         ka "symmetric_bonds" "True"]),
      -- cell 21
      .exprS (.call "m.addGlobalDescriptor"
        [pl "Ecoh", ka "rules" "EqualTo(SumBonds(desc=m.BEij, coefs=1 / (N * sqrt(12))))"]),
      -- cell 23
      .exprS (.call "m.addGlobalTypesDescriptor"
        [pl "Composition", ka "bounds" "CompBounds", ka "rules" "EqualTo(SumSites(desc=m.Yik))"]),
      -- cell 25
      .assign "D" .noneE,
      .tryS (.assign "D" (.call "m.maximize" [pa "m.Ecoh", kl "tilim" "360", kl "trelim" "4096"]))
        .bare (.printS fallbackMsg),
      -- cell 27
      .ifTruthy "D" (.exprS (.call "D.toPDB" [pl "result.pdb"]))
    ] }

/-- All notebook documents of the repository, in file order. -/
def notebooks : List Notebook :=
  [bifunctional_nb, bimetallic_nb, metalOxide_nb, monometallic_nb,
   surface_nb, isotCstr_nb, clc_nb, nanowire_nb]

/-! ## Structural extraction -/

/-- A recorded library call. -/
structure CallInfo where
  fn : String
  args : List Arg
  deriving DecidableEq, Repr

/-- All library calls lexically contained in a statement, in program
order. -/
def callsOf : Stmt → List CallInfo
  | .skip => []
  | .seq a b => callsOf a ++ callsOf b
  | .importS _ => []
  | .assign _ (.call fn args) => [⟨fn, args⟩]
  | .assign _ _ => []
  | .exprS (.call fn args) => [⟨fn, args⟩]
  | .exprS _ => []
  | .printS _ => []
  | .tryS b _ h => callsOf b ++ callsOf h
  | .ifTruthy _ b => callsOf b
  | .ifData _ b => callsOf b
  | .ifDataElse _ t e => callsOf t ++ callsOf e
  | .whileS _ b => callsOf b
  | .forData _ b => callsOf b
  | .forN _ b => callsOf b

example : (callsOf clc_nb.stmts).map CallInfo.fn =
    ["np.random.seed", "np.genfromtxt", "ripe.ripemodel"] := by decide

/-- Is this call a `MatOptModel.maximize` solve call? -/
def isMaximize (fn : String) : Bool := fn = "m.maximize"

/-- Is this call a `ripe.ripemodel` fit call? -/
def isRipemodel (fn : String) : Bool := fn = "ripe.ripemodel"

/-- Solve/fit methods in the sense of the specification: `MatOptModel.maximize`
and `ripe.ripemodel`. -/
def isSolveFn (fn : String) : Bool := isMaximize fn || isRipemodel fn

/-- File-writing calls: `Design.toPDB` and `Design.toCFG` (their first
positional argument is the file written). -/
def isWriteFn (fn : String) : Bool := strEnds fn ".toPDB" || strEnds fn ".toCFG"

/-- File-reading calls: `np.genfromtxt`, `ZipFile` (opening and extracting
the archive), `loadFromPDBs`. -/
def isReadFn (fn : String) : Bool :=
  fn = "np.genfromtxt" || fn = "ZipFile" || fn = "loadFromPDBs"

/-- The first positional argument of a call (the written/read file for the
file-I/O calls). -/
def firstPosArg (args : List Arg) : String :=
  match args.find? (fun a => a.kw = "") with
  | some a => a.val
  | none => ""

/-- The lexical guard context of a statement: at top level, or inside the
body of a `try` whose except-clause is `g` and whose handler does or does
not print the no-usable-solver fallback message. -/
inductive GuardCtx where
  | top
  | guarded (g : Guard) (fallback : Bool)
  deriving DecidableEq, Repr

/-- Does a handler statement print the no-usable-solver fallback message? -/
def printsFallback : Stmt → Bool
  | .printS msg => msg = fallbackMsg
  | .seq a b => printsFallback a || printsFallback b
  | _ => false

/-- All solve/fit calls lexically contained in a statement together with
their guard context, in program order. -/
def solveCallsIn (ctx : GuardCtx) : Stmt → List (String × GuardCtx)
  | .skip => []
  | .seq a b => solveCallsIn ctx a ++ solveCallsIn ctx b
  | .importS _ => []
  | .assign _ (.call fn _) => if isSolveFn fn then [(fn, ctx)] else []
  | .assign _ _ => []
  | .exprS (.call fn _) => if isSolveFn fn then [(fn, ctx)] else []
  | .exprS _ => []
  | .printS _ => []
  | .tryS b g h => solveCallsIn (.guarded g (printsFallback h)) b ++ solveCallsIn ctx h
  | .ifTruthy _ b => solveCallsIn ctx b
  | .ifData _ b => solveCallsIn ctx b
  | .ifDataElse _ t e => solveCallsIn ctx t ++ solveCallsIn ctx e
  | .whileS _ b => solveCallsIn ctx b
  | .forData _ b => solveCallsIn ctx b
  | .forN _ b => solveCallsIn ctx b

/-- The solve/fit calls of a notebook with their guard contexts. -/
def solveCalls (nb : Notebook) : List (String × GuardCtx) :=
  solveCallsIn .top nb.stmts

/-- The `m.maximize` calls of a notebook. -/
def maximizeCalls (nb : Notebook) : List CallInfo :=
  (callsOf nb.stmts).filter (fun c => isMaximize c.fn)

/-- The `ripe.ripemodel` calls of a notebook. -/
def ripemodelCalls (nb : Notebook) : List CallInfo :=
  (callsOf nb.stmts).filter (fun c => isRipemodel c.fn)

/-- The files a notebook writes (first positional argument of every
`toPDB`/`toCFG` call lexically present). -/
def fileWrites (nb : Notebook) : List String :=
  (callsOf nb.stmts).filterMap
    (fun c => if isWriteFn c.fn then some (firstPosArg c.args) else none)

/-- The file-reading calls of a notebook. -/
def readCalls (nb : Notebook) : List CallInfo :=
  (callsOf nb.stmts).filter (fun c => isReadFn c.fn)

/-- The modules a notebook imports, in program order. -/
def importsOf : Stmt → List String
  | .skip => []
  | .seq a b => importsOf a ++ importsOf b
  | .importS mod => [mod]
  | .assign _ _ => []
  | .exprS _ => []
  | .printS _ => []
  | .tryS b _ h => importsOf b ++ importsOf h
  | .ifTruthy _ b => importsOf b
  | .ifData _ b => importsOf b
  | .ifDataElse _ t e => importsOf t ++ importsOf e
  | .whileS _ b => importsOf b
  | .forData _ b => importsOf b
  | .forN _ b => importsOf b

/-- All `try` statements lexically contained in a statement, as
(body, guard, handler) triples. -/
def tryBlocksOf : Stmt → List (Stmt × Guard × Stmt)
  | .skip => []
  | .seq a b => tryBlocksOf a ++ tryBlocksOf b
  | .importS _ => []
  | .assign _ _ => []
  | .exprS _ => []
  | .printS _ => []
  | .tryS b g h => (b, g, h) :: (tryBlocksOf b ++ tryBlocksOf h)
  | .ifTruthy _ b => tryBlocksOf b
  | .ifData _ b => tryBlocksOf b
  | .ifDataElse _ t e => tryBlocksOf t ++ tryBlocksOf e
  | .whileS _ b => tryBlocksOf b
  | .forData _ b => tryBlocksOf b
  | .forN _ b => tryBlocksOf b

/-- The bodies of all `while` loops lexically contained in a statement. -/
def whileBodiesOf : Stmt → List Stmt
  | .skip => []
  | .seq a b => whileBodiesOf a ++ whileBodiesOf b
  | .importS _ => []
  | .assign _ _ => []
  | .exprS _ => []
  | .printS _ => []
  | .tryS b _ h => whileBodiesOf b ++ whileBodiesOf h
  | .ifTruthy _ b => whileBodiesOf b
  | .ifData _ b => whileBodiesOf b
  | .ifDataElse _ t e => whileBodiesOf t ++ whileBodiesOf e
  | .whileS _ b => b :: whileBodiesOf b
  | .forData _ b => whileBodiesOf b
  | .forN _ b => whileBodiesOf b

/-- Does a statement match `x = m.maximize(...)` for some variable `x`? -/
def isSolveAssign : Stmt → Bool
  | .assign _ (.call fn _) => isMaximize fn
  | _ => false

/-! ## C1: exception guards around solve calls -/

/-- Is a solve call wrapped in a bare `except:` whose handler prints the
no-usable-solver fallback message? -/
def guardedBareWithPrint : GuardCtx → Bool
  | .guarded .bare true => true
  | _ => false

/-- Claim C1 as stated, for one notebook: every solve/fit call is wrapped
in a bare `except:` printing the fallback message when it raises. -/
def c1Check (nb : Notebook) : Bool :=
  (solveCalls nb).all (fun s => guardedBareWithPrint s.2)

/-- C1 counterexample: the clc notebook is a notebook of the repository,
its only solve/fit call is the `ripe.ripemodel` call, and that call sits at
top level, wrapped in no exception guard at all — so it is not wrapped in a
bare `except:` and no fallback message is printed when it raises. -/
theorem c1_solve_guard_counterexample :
    clc_nb ∈ notebooks ∧
    solveCalls clc_nb = [("ripe.ripemodel", GuardCtx.top)] ∧
    c1Check clc_nb = false := by
  refine ⟨by decide, by decide, by decide⟩

/-- C1 amended: every `m.maximize` call is wrapped in a broad exception
guard; all of them are bare `except:` clauses printing the fallback message
except the first solve of the bimetallic notebook, which uses
`except Exception as err:` and silently sets the design to `None`; the
`ripe.ripemodel` calls (one in clc, three in the isothermal-CSTR notebook)
are wrapped in no guard at all. -/
theorem c1_solve_guard_amended :
    notebooks.map (fun nb => (nb.name, solveCalls nb)) = [
      ("bifunctional_surface_design", [("m.maximize", .guarded .bare true)]),
      ("bimetallic_nanocluster_design",
        [("m.maximize", .guarded (.named "Exception") false),
         ("m.maximize", .guarded .bare true)]),
      ("metal_oxide_bulk_design", [("m.maximize", .guarded .bare true)]),
      ("monometallic_nanocluster_design", [("m.maximize", .guarded .bare true)]),
      ("surface_design", [("m.maximize", .guarded .bare true)]),
      ("ripe_isothermal_cstr",
        [("ripe.ripemodel", .top), ("ripe.ripemodel", .top), ("ripe.ripemodel", .top)]),
      ("clc", [("ripe.ripemodel", .top)]),
      ("nanowire_design", [("m.maximize", .guarded .bare true)])
    ] := by decide

/-! ## C2: four-phase script shape and output files -/

/-- File writes occurring at or after the first solve/fit call of a
notebook, in program order. -/
def writesAfterFirstSolve (nb : Notebook) : List String :=
  ((callsOf nb.stmts).dropWhile (fun c => !isSolveFn c.fn)).filterMap
    (fun c => if isWriteFn c.fn then some (firstPosArg c.args) else none)

/-- Does the notebook import the MatOpt library? -/
def usesMatOpt (nb : Notebook) : Bool :=
  (importsOf nb.stmts).contains "idaes.apps.matopt"

/-- Claim C2 as stated, for one notebook: it imports a library, performs a
solve/fit call, and writes at least one output file after that call. -/
def c2Check (nb : Notebook) : Bool :=
  !(importsOf nb.stmts).isEmpty && !(solveCalls nb).isEmpty &&
    !(writesAfterFirstSolve nb).isEmpty

/-- C2 counterexample: the clc notebook is a notebook of the repository,
and it writes no output file at all — there is no phase (4); its script
ends at the `ripe.ripemodel` fit call. -/
theorem c2_phase_counterexample :
    clc_nb ∈ notebooks ∧ fileWrites clc_nb = [] ∧ c2Check clc_nb = false := by
  refine ⟨by decide, by decide, by decide⟩

/-- C2 amended: every notebook imports its library and performs at least
one solve/fit call; every MatOpt notebook writes at least one output file
lexically after a solve call, but the two RIPE notebooks (clc and the
isothermal CSTR) end at their fit calls and write no output file. -/
theorem c2_phase_amended :
    (notebooks.all fun nb =>
      !(importsOf nb.stmts).isEmpty && !(solveCalls nb).isEmpty) = true ∧
    (notebooks.all fun nb =>
      if usesMatOpt nb then !(writesAfterFirstSolve nb).isEmpty
      else (fileWrites nb).isEmpty) = true := by
  refine ⟨by decide, by decide⟩

/-! ## C3: file-system boundary behaviour -/

/-- The clc notebook's kinetics-data read: `np.genfromtxt("clc.csv", ...)`. -/
def genfromtxtRead : CallInfo := ⟨"np.genfromtxt", [pl "clc.csv", kl "delimiter" ","]⟩

/-- The metal-oxide notebook's archive read: `ZipFile("./confs.zip")`
(extracted into a temporary directory). -/
def zipRead : CallInfo := ⟨"ZipFile", [pl "./confs.zip"]⟩

/-- The metal-oxide notebook's conformation read: `loadFromPDBs(...)` on
the PDB files extracted from the archive. -/
def pdbRead : CallInfo :=
  ⟨"loadFromPDBs",
   [pa "[str(i) + \".pdb\" for i in iDesiredConfs]", ka "folder" "ConfDir + \"/confs/\""]⟩

/-- C3: the only file reads across all notebooks are the packaged
conformations (the `confs.zip` archive and the PDB files inside it) and the
`clc.csv` kinetics data, and every file any notebook writes is a PDB or CFG
structure file; no notebook reads or writes a file of any other kind. -/
theorem c3_boundary_io :
    notebooks.map (fun nb => (nb.name, readCalls nb)) = [
      ("bifunctional_surface_design", []),
      ("bimetallic_nanocluster_design", []),
      ("metal_oxide_bulk_design", [zipRead, pdbRead]),
      ("monometallic_nanocluster_design", []),
      ("surface_design", []),
      ("ripe_isothermal_cstr", []),
      ("clc", [genfromtxtRead]),
      ("nanowire_design", [])
    ] ∧
    notebooks.map (fun nb => (nb.name, fileWrites nb)) = [
      ("bifunctional_surface_design",
        ["canvas.pdb", "canvas.cfg", "result.cfg", "periodic_result.cfg"]),
      ("bimetallic_nanocluster_design", ["result.pdb"]),
      ("metal_oxide_bulk_design", ["result.cfg"]),
      ("monometallic_nanocluster_design", ["canvas_sites.pdb", "result.pdb"]),
      ("surface_design",
        ["undefected.pdb", "undefected.cfg", "result.pdb", "periodic_result.cfg"]),
      ("ripe_isothermal_cstr", []),
      ("clc", []),
      ("nanowire_design", ["canvas.pdb", "result.pdb", "periodic_result.pdb"])
    ] ∧
    (notebooks.all fun nb =>
      (fileWrites nb).all fun f => strEnds f ".pdb" || strEnds f ".cfg") = true := by
  refine ⟨by decide, by decide, by decide⟩

/-! ## C4: solver options -/

/-- The keyword-argument names of a call. -/
def kwNames (c : CallInfo) : List String :=
  (c.args.filter (fun a => a.kw ≠ "")).map Arg.kw

/-- Are all keyword arguments of a call literal scalar constants? -/
def kwAllLit (c : CallInfo) : Bool :=
  (c.args.filter (fun a => a.kw ≠ "")).all Arg.lit

/-- Claim C4 as stated, for one notebook: every `m.maximize` call passes
only the scalar options `tilim` and `trelim`. -/
def c4Check (nb : Notebook) : Bool :=
  (maximizeCalls nb).all fun c =>
    ((kwNames c).all fun k => k = "tilim" || k = "trelim") && kwAllLit c

/-- C4 counterexample: the nanowire notebook is a notebook of the
repository, and its solver call is
`m.maximize(m.Ecoh, tilim=360, solver="cplex")` — it passes the option
`solver`, which is neither `tilim` nor `trelim`. -/
theorem c4_solver_options_counterexample :
    nanowire_nb ∈ notebooks ∧
    (maximizeCalls nanowire_nb).map kwNames = [["tilim", "solver"]] ∧
    c4Check nanowire_nb = false := by
  refine ⟨by decide, by decide, by decide⟩

/-- C4 amended: every `m.maximize` call passes the scalar time limit
`tilim`; the only other options passed are the scalar tree-memory limit
`trelim` (second bimetallic solve) and the solver-name string
`solver="cplex"` (nanowire notebook); all of these are literal scalars. -/
theorem c4_solver_options_amended :
    (notebooks.all fun nb => (maximizeCalls nb).all fun c =>
      (kwNames c).contains "tilim" &&
      ((kwNames c).all fun k => k = "tilim" || k = "trelim" || k = "solver") &&
      kwAllLit c) = true ∧
    notebooks.map (fun nb => (maximizeCalls nb).map kwNames) = [
      [["tilim"]],
      [["tilim"], ["tilim", "trelim"]],
      [["tilim"]],
      [["tilim"]],
      [["tilim"]],
      [],
      [],
      [["tilim", "solver"]]
    ] := by
  refine ⟨by decide, by decide⟩

/-! ## C5: solve-call counts, loop structure, no concurrency -/

/-- Modules whose import would introduce threads or subprocesses. -/
def spawnModules : List String :=
  ["threading", "multiprocessing", "subprocess", "concurrent.futures", "asyncio"]

/-- Claim C5 as stated, for one notebook: a MatOpt notebook calls
`m.maximize` exactly once. -/
def c5Check (nb : Notebook) : Bool :=
  !usesMatOpt nb || (maximizeCalls nb).length = 1

/-- C5 counterexample: the bimetallic notebook is a MatOpt notebook of the
repository and calls `m.maximize` twice (monometallic stage, then
bimetallic stage), not exactly once. -/
theorem c5_solve_counts_counterexample :
    bimetallic_nb ∈ notebooks ∧
    (maximizeCalls bimetallic_nb).length = 2 ∧
    c5Check bimetallic_nb = false := by
  refine ⟨by decide, by decide, by decide⟩

/-- C5 amended: each MatOpt notebook calls `m.maximize` exactly once except
the bimetallic notebook, which calls it twice (once per optimization
stage); the single data-dependent refinement loop (isothermal CSTR) calls
`ripe.ripemodel` exactly once per iteration; and no notebook imports a
threading/subprocess module. -/
theorem c5_solve_counts_amended :
    notebooks.map (fun nb => (nb.name, (maximizeCalls nb).length)) = [
      ("bifunctional_surface_design", 1),
      ("bimetallic_nanocluster_design", 2),
      ("metal_oxide_bulk_design", 1),
      ("monometallic_nanocluster_design", 1),
      ("surface_design", 1),
      ("ripe_isothermal_cstr", 0),
      ("clc", 0),
      ("nanowire_design", 1)
    ] ∧
    notebooks.map (fun nb =>
      (whileBodiesOf nb.stmts).map fun b =>
        ((callsOf b).filter fun c => isRipemodel c.fn).length) =
      [[], [], [], [], [], [1], [], []] ∧
    (notebooks.all fun nb =>
      (importsOf nb.stmts).all fun mod => !(spawnModules.contains mod)) = true := by
  refine ⟨by decide, by decide, by decide⟩

/-! ## C6: no exception handler other than around the solve call -/

/-- C6: every `try` block in every notebook has as its body exactly the
single statement `x = m.maximize(...)`; no other statement of any notebook
is inside an exception handler, so a failure of any other library call
(file reading, canvas/model construction, output writing) propagates
uncaught to the top level.  There are seven `try` blocks in total: one in
each MatOpt notebook, two in the bimetallic notebook, none in the RIPE
notebooks. -/
theorem c6_no_other_handlers :
    (notebooks.all fun nb =>
      (tryBlocksOf nb.stmts).all fun t => isSolveAssign t.1) = true ∧
    notebooks.map (fun nb => (tryBlocksOf nb.stmts).length) =
      [1, 2, 1, 1, 1, 0, 0, 1] := by
  refine ⟨by decide, by decide⟩

/-! ## Interpreter

Execution semantics of the notebook scripts over an oracle abstracting the
external libraries: the oracle decides, per consultation, the result of
each library call (a returned value or a raised exception), the number of
iterations each data-dependent `while`/`for` performs, and each
data-dependent branch outcome.  Pure Python expressions evaluate to an
opaque object and raise nothing (none of the notebooks' pure expressions
can raise).  The interpreter is fuel-indexed so that it is structurally
recursive; fuel bounds only the call-tree depth. -/

/-- Opaque runtime values: `None` or a library object. -/
inductive Val where
  | none
  | obj (tag : Nat)
  deriving DecidableEq, Repr

/-- Python truthiness of our values (`None` is falsy; the library objects
the notebooks test — designs — are truthy). -/
def Val.truthy : Val → Bool
  | .none => false
  | .obj _ => true

/-- Observable events of a run: library calls and printed messages. -/
inductive Event where
  | call (fn : String) (args : List Arg)
  | println (msg : String)
  deriving DecidableEq, Repr

/-- The oracle abstracting the external libraries and the run-time data:
the result of the n-th library call, the iteration count of the n-th
data-dependent `while` loop, the iteration count of the n-th data-driven
`for` loop, and the outcome of the n-th data-dependent branch. -/
structure Oracle where
  callResult : Nat → Except Unit Val
  whileIters : Nat → Nat
  forCount : Nat → Nat
  dataCond : Nat → Bool

/-- Interpreter state: the environment, the event trace, and consultation
counters for each oracle stream. -/
structure St where
  env : List (String × Val)
  trace : List Event
  nCall : Nat
  nWhile : Nat
  nFor : Nat
  nCond : Nat
  deriving DecidableEq, Repr

/-- The initial state of a notebook run. -/
def initSt : St := ⟨[], [], 0, 0, 0, 0⟩

/-- Look a variable up (an unbound variable reads as `None`; every variable
the notebooks branch on is bound first). -/
def lookupVar (env : List (String × Val)) (x : String) : Val :=
  match env.find? (fun p => p.1 = x) with
  | some p => p.2
  | Option.none => .none

/-- Bind a variable. -/
def setVar (s : St) (x : String) (v : Val) : St :=
  { s with env := (x, v) :: s.env }

/-- Result of executing a statement: normal termination, a propagating
exception, or fuel exhaustion. -/
inductive Outcome where
  | norm (s : St)
  | exc (s : St)
  | out
  deriving DecidableEq, Repr

/-- Evaluate an expression: pure expressions yield an opaque object,
`None` yields `Val.none`, and a library call records its event and consults
the oracle, which may raise. -/
def evalE (o : Oracle) (e : Expr) (s : St) : Except Unit Val × St :=
  match e with
  | .pure _ => (.ok (.obj 0), s)
  | .noneE => (.ok .none, s)
  | .call fn args =>
      (o.callResult s.nCall,
       { s with trace := s.trace ++ [.call fn args], nCall := s.nCall + 1 })

/-- Continue with `k` on normal termination; pass exceptions and fuel
exhaustion through. -/
def andThen (r : Outcome) (k : St → Outcome) : Outcome :=
  match r with
  | .norm s => k s
  | r => r

/-- Continue with the handler `k` on an exception; pass normal termination
and fuel exhaustion through. -/
def orElse (r : Outcome) (k : St → Outcome) : Outcome :=
  match r with
  | .exc s => k s
  | r => r

/-- Finish `x = e`: bind the value on success, raise on failure. -/
def finishAssign (x : String) (p : Except Unit Val × St) : Outcome :=
  match p with
  | (.ok v, s2) => .norm (setVar s2 x v)
  | (.error _, s2) => .exc s2

/-- Finish an expression statement: discard the value on success, raise on
failure. -/
def finishExpr (p : Except Unit Val × St) : Outcome :=
  match p with
  | (.ok _, s2) => .norm s2
  | (.error _, s2) => .exc s2

/-- Execute a statement with the given fuel.  `whileS` and `forData`
consult the oracle for their iteration count and then behave as `forN`. -/
def exec (o : Oracle) : Nat → Stmt → St → Outcome
  | 0, _, _ => .out
  | _ + 1, .skip, s => .norm s
  | f + 1, .seq a b, s => andThen (exec o f a s) (fun s2 => exec o f b s2)
  | _ + 1, .importS _, s => .norm s
  | _ + 1, .assign x e, s => finishAssign x (evalE o e s)
  | _ + 1, .exprS e, s => finishExpr (evalE o e s)
  | _ + 1, .printS msg, s => .norm { s with trace := s.trace ++ [.println msg] }
  | f + 1, .tryS b _ h, s => orElse (exec o f b s) (fun s2 => exec o f h s2)
  | f + 1, .ifTruthy x b, s =>
      if (lookupVar s.env x).truthy then exec o f b s else .norm s
  | f + 1, .ifData _ b, s =>
      let s2 := { s with nCond := s.nCond + 1 }
      if o.dataCond s.nCond then exec o f b s2 else .norm s2
  | f + 1, .ifDataElse _ t e, s =>
      let s2 := { s with nCond := s.nCond + 1 }
      if o.dataCond s.nCond then exec o f t s2 else exec o f e s2
  | f + 1, .whileS _ b, s =>
      exec o f (.forN (o.whileIters s.nWhile) b) { s with nWhile := s.nWhile + 1 }
  | f + 1, .forData _ b, s =>
      exec o f (.forN (o.forCount s.nFor) b) { s with nFor := s.nFor + 1 }
  | _ + 1, .forN 0 _, s => .norm s
  | f + 1, .forN (n + 1) b, s =>
      andThen (exec o f b s) (fun s2 => exec o f (.forN n b) s2)

/-- Run a notebook from the initial state (fuel 300 exceeds the call-tree
depth of every concrete run considered here). -/
def runNb (o : Oracle) (nb : Notebook) : Outcome := exec o 300 nb.stmts initSt

/-- The event trace of an outcome. -/
def traceOf : Outcome → List Event
  | .norm s => s.trace
  | .exc s => s.trace
  | .out => []

/-- Did the run terminate normally? -/
def isNorm : Outcome → Bool
  | .norm _ => true
  | _ => false

/-- The final value of a variable after a run. -/
def finalVar (oc : Outcome) (x : String) : Option Val :=
  match oc with
  | .norm s => some (lookupVar s.env x)
  | .exc s => some (lookupVar s.env x)
  | .out => Option.none

/-- The library-call events of a trace. -/
def callEvents (tr : List Event) : List Event :=
  tr.filter (fun e => match e with | .call _ _ => true | _ => false)

/-! ## Oracles used by the semantic claims -/

/-- The index of a notebook's first solve/fit call in its call sequence
(all calls before it are straight-line, so this is also its run-time call
index). -/
def solveIdxOf (nb : Notebook) : Nat :=
  ((callsOf nb.stmts).takeWhile (fun c => !isSolveFn c.fn)).length

/-- An oracle on which every library call succeeds with an object; the
data-dependent while-loop iteration counts are `wi`, data-driven for loops
run zero iterations and data branches are false. -/
def okOracle (wi : Nat → Nat) : Oracle :=
  ⟨fun _ => .ok (.obj 0), wi, fun _ => 0, fun _ => false⟩

/-- An oracle on which the `k`-th library call raises and every other call
succeeds; the control streams `wi`, `fc`, `dc` are arbitrary. -/
def failAt (k : Nat) (wi fc : Nat → Nat) (dc : Nat → Bool) : Oracle :=
  ⟨fun i => if i = k then .error () else .ok (.obj 0), wi, fc, dc⟩

/-- Is this event the writing of a result structure file? -/
def isResultWrite : Event → Bool
  | .call fn args => isWriteFn fn &&
      (firstPosArg args = "result.pdb" || firstPosArg args = "periodic_result.pdb" ||
       firstPosArg args = "result.cfg" || firstPosArg args = "periodic_result.cfg")
  | _ => false

/-- Is this event a `setContent` call on a design? -/
def isSetContent : Event → Bool
  | .call fn _ => strEnds fn ".setContent"
  | _ => false

/-! ## Noninterference of the call sequence

The event trace of a notebook run is determined by the control-relevant
outcomes the oracle supplies — whether each call raised and whether the
value it returned is truthy, the loop iteration counts, and the branch
outcomes — and by nothing else. -/

/-- The control-relevant shape of a library-call result: `Option.none` when
the call raised, otherwise the truthiness of the returned value. -/
def resShape : Except Unit Val → Option Bool
  | .error _ => Option.none
  | .ok v => some v.truthy

/-- Two oracles agreeing on every control-relevant outcome. -/
structure OracleAgree (o1 o2 : Oracle) : Prop where
  call : ∀ n, resShape (o1.callResult n) = resShape (o2.callResult n)
  whileI : ∀ n, o1.whileIters n = o2.whileIters n
  forC : ∀ n, o1.forCount n = o2.forCount n
  dataC : ∀ n, o1.dataCond n = o2.dataCond n

/-- The control-relevant shape of an environment: each variable's
truthiness. -/
def envShape (env : List (String × Val)) : List (String × Bool) :=
  env.map (fun p => (p.1, p.2.truthy))

/-- States that agree on everything control-relevant and observable. -/
structure StRel (s1 s2 : St) : Prop where
  trace : s1.trace = s2.trace
  nCall : s1.nCall = s2.nCall
  nWhile : s1.nWhile = s2.nWhile
  nFor : s1.nFor = s2.nFor
  nCond : s1.nCond = s2.nCond
  env : envShape s1.env = envShape s2.env

/-- Related outcomes: the same constructor with related states. -/
inductive OutRel : Outcome → Outcome → Prop where
  | norm {s1 s2 : St} (h : StRel s1 s2) : OutRel (.norm s1) (.norm s2)
  | exc {s1 s2 : St} (h : StRel s1 s2) : OutRel (.exc s1) (.exc s2)
  | out : OutRel .out .out

/-- Variable lookups in shape-equal environments have equal truthiness. -/
theorem lookup_truthy_eq {e1 e2 : List (String × Val)}
    (h : envShape e1 = envShape e2) (x : String) :
    (lookupVar e1 x).truthy = (lookupVar e2 x).truthy := by
  induction e1 generalizing e2 with
  | nil =>
    cases e2 with
    | nil => rfl
    | cons b t2 => simp [envShape] at h
  | cons a t ih =>
    cases e2 with
    | nil => simp [envShape] at h
    | cons b t2 =>
      obtain ⟨a1, a2⟩ := a
      obtain ⟨b1, b2⟩ := b
      simp only [envShape, List.map_cons, List.cons.injEq, Prod.mk.injEq] at h
      obtain ⟨⟨hname, htr⟩, hrest⟩ := h
      subst hname
      by_cases hx : a1 = x
      · simp [lookupVar, List.find?_cons_of_pos, hx, htr]
      · unfold lookupVar
        rw [List.find?_cons_of_neg _ (by simp [hx]),
            List.find?_cons_of_neg _ (by simp [hx])]
        exact ih hrest

/-- Expression evaluation preserves the relation and yields shape-equal
results. -/
theorem evalE_rel {o1 o2 : Oracle} (hag : OracleAgree o1 o2) (e : Expr)
    {s1 s2 : St} (hs : StRel s1 s2) :
    resShape (evalE o1 e s1).1 = resShape (evalE o2 e s2).1 ∧
    StRel (evalE o1 e s1).2 (evalE o2 e s2).2 := by
  cases e with
  | pure _ => exact ⟨rfl, hs⟩
  | noneE => exact ⟨rfl, hs⟩
  | call fn args =>
    refine ⟨?_, ?_⟩
    · simpa [evalE, hs.nCall] using hag.call s2.nCall
    · exact ⟨by simp [evalE, hs.trace], by simp [evalE, hs.nCall], hs.nWhile,
        hs.nFor, hs.nCond, hs.env⟩

/-- Sequencing related outcomes stays related when the normal
continuations do. -/
theorem OutRel.andThenRel {x1 x2 : Outcome} (h : OutRel x1 x2)
    {k1 k2 : St → Outcome}
    (hk : ∀ {t1 t2 : St}, StRel t1 t2 → OutRel (k1 t1) (k2 t2)) :
    OutRel (andThen x1 k1) (andThen x2 k2) := by
  cases h with
  | norm h => exact hk h
  | exc h => exact .exc h
  | out => exact .out

/-- Exception handling on related outcomes stays related when the handler
continuations do. -/
theorem OutRel.orElseRel {x1 x2 : Outcome} (h : OutRel x1 x2)
    {k1 k2 : St → Outcome}
    (hk : ∀ {t1 t2 : St}, StRel t1 t2 → OutRel (k1 t1) (k2 t2)) :
    OutRel (orElse x1 k1) (orElse x2 k2) := by
  cases h with
  | norm h => exact .norm h
  | exc h => exact hk h
  | out => exact .out

/-- Assignment of shape-equal evaluation results preserves the relation. -/
theorem OutRel.assignCase {p1 p2 : Except Unit Val × St}
    (hr : resShape p1.1 = resShape p2.1) (hs : StRel p1.2 p2.2) (x : String) :
    OutRel (finishAssign x p1) (finishAssign x p2) := by
  obtain ⟨r1, t1⟩ := p1
  obtain ⟨r2, t2⟩ := p2
  cases r1 with
  | error e1 =>
    cases r2 with
    | error e2 => exact .exc hs
    | ok v2 => simp [resShape] at hr
  | ok v1 =>
    cases r2 with
    | error e2 => simp [resShape] at hr
    | ok v2 =>
      simp only [resShape, Option.some.injEq] at hr
      refine .norm ⟨hs.trace, hs.nCall, hs.nWhile, hs.nFor, hs.nCond, ?_⟩
      simp only [setVar, envShape, List.map_cons, hr]
      exact congrArg _ (by simpa [envShape] using hs.env)

/-- Expression statements over shape-equal evaluation results preserve the
relation. -/
theorem OutRel.exprCase {p1 p2 : Except Unit Val × St}
    (hr : resShape p1.1 = resShape p2.1) (hs : StRel p1.2 p2.2) :
    OutRel (finishExpr p1) (finishExpr p2) := by
  obtain ⟨r1, t1⟩ := p1
  obtain ⟨r2, t2⟩ := p2
  cases r1 with
  | error e1 =>
    cases r2 with
    | error e2 => exact .exc hs
    | ok v2 => simp [resShape] at hr
  | ok v1 =>
    cases r2 with
    | error e2 => simp [resShape] at hr
    | ok v2 => exact .norm hs

/-- Noninterference: runs of the same statement under oracles that agree
on all control-relevant outcomes produce related (in particular,
trace-equal) results. -/
theorem exec_rel {o1 o2 : Oracle} (hag : OracleAgree o1 o2) :
    ∀ (f : Nat) (t : Stmt) {s1 s2 : St}, StRel s1 s2 →
      OutRel (exec o1 f t s1) (exec o2 f t s2) := by
  intro f
  induction f with
  | zero => intro t s1 s2 _; exact .out
  | succ f ih =>
    intro t s1 s2 hs
    cases t with
    | skip => exact .norm hs
    | seq a b =>
      exact OutRel.andThenRel (ih a hs) (fun h => ih b h)
    | importS mod => exact .norm hs
    | assign x e =>
      have h := evalE_rel hag e hs
      exact OutRel.assignCase h.1 h.2 x
    | exprS e =>
      have h := evalE_rel hag e hs
      exact OutRel.exprCase h.1 h.2
    | printS msg =>
      exact .norm ⟨by simp [hs.trace], hs.nCall, hs.nWhile, hs.nFor, hs.nCond, hs.env⟩
    | tryS b g h =>
      exact OutRel.orElseRel (ih b hs) (fun hh => ih h hh)
    | ifTruthy x b =>
      show OutRel (if (lookupVar s1.env x).truthy then exec o1 f b s1 else .norm s1)
        (if (lookupVar s2.env x).truthy then exec o2 f b s2 else .norm s2)
      rw [lookup_truthy_eq hs.env x]
      by_cases hc : (lookupVar s2.env x).truthy
      · simp only [hc, if_true]
        exact ih b hs
      · simp only [hc]
        exact .norm hs
    | ifData c b =>
      show OutRel
        (if o1.dataCond s1.nCond then exec o1 f b { s1 with nCond := s1.nCond + 1 }
         else .norm { s1 with nCond := s1.nCond + 1 })
        (if o2.dataCond s2.nCond then exec o2 f b { s2 with nCond := s2.nCond + 1 }
         else .norm { s2 with nCond := s2.nCond + 1 })
      have hrel : StRel { s1 with nCond := s1.nCond + 1 } { s2 with nCond := s2.nCond + 1 } :=
        ⟨hs.trace, hs.nCall, hs.nWhile, hs.nFor, by simp [hs.nCond], hs.env⟩
      have hcnd : o1.dataCond s1.nCond = o2.dataCond s2.nCond := by
        rw [hs.nCond, hag.dataC]
      rw [hcnd]
      by_cases hc : o2.dataCond s2.nCond
      · simp only [hc, if_true]
        exact ih b hrel
      · simp only [hc]
        exact .norm hrel
    | ifDataElse c t e =>
      show OutRel
        (if o1.dataCond s1.nCond then exec o1 f t { s1 with nCond := s1.nCond + 1 }
         else exec o1 f e { s1 with nCond := s1.nCond + 1 })
        (if o2.dataCond s2.nCond then exec o2 f t { s2 with nCond := s2.nCond + 1 }
         else exec o2 f e { s2 with nCond := s2.nCond + 1 })
      have hrel : StRel { s1 with nCond := s1.nCond + 1 } { s2 with nCond := s2.nCond + 1 } :=
        ⟨hs.trace, hs.nCall, hs.nWhile, hs.nFor, by simp [hs.nCond], hs.env⟩
      have hcnd : o1.dataCond s1.nCond = o2.dataCond s2.nCond := by
        rw [hs.nCond, hag.dataC]
      rw [hcnd]
      by_cases hc : o2.dataCond s2.nCond
      · simp only [hc, if_true]
        exact ih t hrel
      · simp only [hc]
        exact ih e hrel
    | whileS c b =>
      show OutRel
        (exec o1 f (.forN (o1.whileIters s1.nWhile) b) { s1 with nWhile := s1.nWhile + 1 })
        (exec o2 f (.forN (o2.whileIters s2.nWhile) b) { s2 with nWhile := s2.nWhile + 1 })
      have hrel : StRel { s1 with nWhile := s1.nWhile + 1 } { s2 with nWhile := s2.nWhile + 1 } :=
        ⟨hs.trace, hs.nCall, by simp [hs.nWhile], hs.nFor, hs.nCond, hs.env⟩
      have hn : o1.whileIters s1.nWhile = o2.whileIters s2.nWhile := by
        rw [hs.nWhile, hag.whileI]
      rw [hn]
      exact ih _ hrel
    | forData c b =>
      show OutRel
        (exec o1 f (.forN (o1.forCount s1.nFor) b) { s1 with nFor := s1.nFor + 1 })
        (exec o2 f (.forN (o2.forCount s2.nFor) b) { s2 with nFor := s2.nFor + 1 })
      have hrel : StRel { s1 with nFor := s1.nFor + 1 } { s2 with nFor := s2.nFor + 1 } :=
        ⟨hs.trace, hs.nCall, hs.nWhile, by simp [hs.nFor], hs.nCond, hs.env⟩
      have hn : o1.forCount s1.nFor = o2.forCount s2.nFor := by
        rw [hs.nFor, hag.forC]
      rw [hn]
      exact ih _ hrel
    | forN n b =>
      cases n with
      | zero => exact .norm hs
      | succ n =>
        exact OutRel.andThenRel (ih b hs) (fun h => ih (.forN n b) h)

/-! ## C7: the call sequence is not fixed, and what determines it -/

/-- Claim C7 as stated, specialized to two concrete runs of one notebook:
the library-call sequence would be identical across any two runs. -/
def c7SameCalls (nb : Notebook) (o1 o2 : Oracle) : Bool :=
  callEvents (traceOf (runNb o1 nb)) = callEvents (traceOf (runNb o2 nb))

/-- C7 counterexample: the isothermal-CSTR notebook is a notebook of the
repository, and two runs differing only in the data read at run time (one
in which the refinement-loop condition `any(err > ...)` fails at once, one
in which it holds once) perform 6 and 10 library calls respectively — the
sequence of library calls is not fixed, because the `while` loop and the
`if D is not None` guards are data-dependent control flow in the notebook
itself. -/
theorem c7_fixed_sequence_counterexample :
    isotCstr_nb ∈ notebooks ∧
    (callEvents (traceOf (runNb (okOracle (fun _ => 0)) isotCstr_nb))).length = 6 ∧
    (callEvents (traceOf (runNb (okOracle (fun _ => 1)) isotCstr_nb))).length = 10 ∧
    c7SameCalls isotCstr_nb (okOracle (fun _ => 0)) (okOracle (fun _ => 1)) = false := by
  refine ⟨by decide, by decide, by decide, by decide⟩

/-- C7 amended: each notebook does contain data-dependent control flow
(the solve-success guards, the data-driven loops and branches, and the
CSTR refinement `while` loop), but nothing else influences the call
sequence: two runs of any notebook under oracles that agree on those
control outcomes (whether each call raised, the truthiness of each
returned value, each loop count, each branch outcome) produce identical
event traces, whatever the returned data values are. -/
theorem c7_call_sequence_determined :
    ∀ o1 o2 : Oracle, OracleAgree o1 o2 → ∀ (f : Nat) (nb : Notebook),
      nb ∈ notebooks →
      traceOf (exec o1 f nb.stmts initSt) = traceOf (exec o2 f nb.stmts initSt) := by
  intro o1 o2 hag f nb _
  have h := exec_rel hag f nb.stmts
    ((⟨rfl, rfl, rfl, rfl, rfl, rfl⟩ : StRel initSt initSt))
  generalize hA : exec o1 f nb.stmts initSt = r1 at h ⊢
  generalize hB : exec o2 f nb.stmts initSt = r2 at h ⊢
  cases h with
  | norm h => exact h.trace
  | exc h => exact h.trace
  | out => rfl

/-- C7 amended, witness: two oracles returning different objects from
every library call but agreeing on the control outcomes give the clc
notebook identical traces. -/
theorem c7_call_sequence_determined_witness :
    traceOf (exec ⟨fun _ => .ok (.obj 1), fun _ => 1, fun _ => 2, fun _ => true⟩
        300 clc_nb.stmts initSt) =
      traceOf (exec ⟨fun _ => .ok (.obj 2), fun _ => 1, fun _ => 2, fun _ => true⟩
        300 clc_nb.stmts initSt) :=
  c7_call_sequence_determined
    ⟨fun _ => .ok (.obj 1), fun _ => 1, fun _ => 2, fun _ => true⟩
    ⟨fun _ => .ok (.obj 2), fun _ => 1, fun _ => 2, fun _ => true⟩
    ⟨fun _ => rfl, fun _ => rfl, fun _ => rfl, fun _ => rfl⟩
    300 clc_nb (by decide)

/-! ## C8: a raised solve call leaves the design `None` and writes nothing -/

/-- C8: in any run of the nanowire or monometallic notebook in which every
library call succeeds except the guarded `m.maximize` call, which raises
(whatever the data-dependent loop counts and branch outcomes are): the run
still terminates normally (the guard catches the exception), the design
variable (`optimalDesign` resp. `D`) is `None` at the end, and the trace
contains no `setContent` call and no write of a result file
(`result.pdb`, `periodic_result.pdb`, `result.cfg`,
`periodic_result.cfg`); and when the solve call instead returns a design,
the result files are written. -/
theorem c8_failed_solve_writes_nothing :
    ∀ (wi fc : Nat → Nat) (dc : Nat → Bool),
      (isNorm (runNb (failAt (solveIdxOf nanowire_nb) wi fc dc) nanowire_nb) = true ∧
       finalVar (runNb (failAt (solveIdxOf nanowire_nb) wi fc dc) nanowire_nb)
         "optimalDesign" = some Val.none ∧
       ((traceOf (runNb (failAt (solveIdxOf nanowire_nb) wi fc dc) nanowire_nb)).all
         fun e => !isResultWrite e && !isSetContent e) = true) ∧
      (isNorm (runNb (failAt (solveIdxOf monometallic_nb) wi fc dc) monometallic_nb) = true ∧
       finalVar (runNb (failAt (solveIdxOf monometallic_nb) wi fc dc) monometallic_nb)
         "D" = some Val.none ∧
       ((traceOf (runNb (failAt (solveIdxOf monometallic_nb) wi fc dc) monometallic_nb)).all
         fun e => !isResultWrite e && !isSetContent e) = true) ∧
      ((traceOf (runNb (okOracle (fun _ => 0)) nanowire_nb)).any isResultWrite = true ∧
       (traceOf (runNb (okOracle (fun _ => 0)) monometallic_nb)).any isResultWrite = true) := by
  intro wi fc dc
  exact ⟨⟨rfl, rfl, rfl⟩, ⟨rfl, rfl, rfl⟩, ⟨by decide, by decide⟩⟩

/-! ## C9: the site-partition comprehensions

Exact functional models of the index-list comprehensions of the nanowire
notebook (cells 18 and 20) and the surface-design notebook (cell 20).
Coordinates are modelled as rationals; `enumerate(canvas.Points)` with an
index filter is the filter of `range len(Points)` by the predicate at each
index. -/

/-- A canvas lattice point; `x0`, `x1`, `x2` are `p[0]`, `p[1]`, `p[2]`. -/
structure Pt3 where
  x0 : ℚ
  x1 : ℚ
  x2 : ℚ
  deriving DecidableEq, Repr

/-- Nanowire cell 18:
`CoreLayers = [i for i, p in enumerate(canvas.Points)
               if p[0] ** 2 + p[1] ** 2 < (coreRatio * radius) ** 2]`. -/
def CoreLayers (Points : List Pt3) (coreRatio radius : ℚ) : List Nat :=
  (List.range Points.length).filter fun i =>
    let p := Points.getD i ⟨0, 0, 0⟩
    p.x0 ^ 2 + p.x1 ^ 2 < (coreRatio * radius) ^ 2

/-- Nanowire cell 20:
`CanvasMinusCoreLayers = [i for i, p in enumerate(canvas.Points)
                          if i not in CoreLayers]`. -/
def CanvasMinusCoreLayers (Points : List Pt3) (coreRatio radius : ℚ) : List Nat :=
  (List.range Points.length).filter fun i =>
    i ∉ CoreLayers Points coreRatio radius

/-- Surface-design cell 20:
`CanvTwoBotLayers = [i for i in range(len(Canv))
                     if Canv.Points[i][2] < 1.5 * Lat.FCC111LayerSpacing]`. -/
def CanvTwoBotLayers (Points : List Pt3) (FCC111LayerSpacing : ℚ) : List Nat :=
  (List.range Points.length).filter fun i =>
    (Points.getD i ⟨0, 0, 0⟩).x2 < 1.5 * FCC111LayerSpacing

/-- Surface-design cell 20:
`CanvMinusTwoBotLayers = [i for i in range(len(Canv))
                          if i not in CanvTwoBotLayers]`. -/
def CanvMinusTwoBotLayers (Points : List Pt3) (FCC111LayerSpacing : ℚ) : List Nat :=
  (List.range Points.length).filter fun i =>
    i ∉ CanvTwoBotLayers Points FCC111LayerSpacing

/-- A filter of `range n` is strictly increasing. -/
theorem sorted_filterRange (n : Nat) (P : Nat → Bool) :
    List.Sorted (· < ·) ((List.range n).filter P) :=
  (List.sorted_lt_range n).filter P

/-- C9: for every canvas and parameters, `CoreLayers` and
`CanvasMinusCoreLayers` partition the site indices `0 .. len(Points)-1`
(each index is in exactly one), both lists are strictly increasing, and
`CoreLayers` holds exactly the sites whose squared radial distance
`p[0]^2 + p[1]^2` is strictly below `(coreRatio * radius)^2`; the analogous
facts hold for `CanvTwoBotLayers` / `CanvMinusTwoBotLayers` with the test
`p[2] < 1.5 * FCC111LayerSpacing`. -/
theorem c9_site_partition :
    ∀ (Points : List Pt3) (coreRatio radius spacing : ℚ),
      List.Sorted (· < ·) (CoreLayers Points coreRatio radius) ∧
      List.Sorted (· < ·) (CanvasMinusCoreLayers Points coreRatio radius) ∧
      (∀ i : Nat, i < Points.length →
        (i ∈ CoreLayers Points coreRatio radius ∧
         i ∉ CanvasMinusCoreLayers Points coreRatio radius) ∨
        (i ∉ CoreLayers Points coreRatio radius ∧
         i ∈ CanvasMinusCoreLayers Points coreRatio radius)) ∧
      (∀ i : Nat, i ∈ CoreLayers Points coreRatio radius ↔
        i < Points.length ∧
        (Points.getD i ⟨0, 0, 0⟩).x0 ^ 2 + (Points.getD i ⟨0, 0, 0⟩).x1 ^ 2 <
          (coreRatio * radius) ^ 2) ∧
      List.Sorted (· < ·) (CanvTwoBotLayers Points spacing) ∧
      List.Sorted (· < ·) (CanvMinusTwoBotLayers Points spacing) ∧
      (∀ i : Nat, i < Points.length →
        (i ∈ CanvTwoBotLayers Points spacing ∧
         i ∉ CanvMinusTwoBotLayers Points spacing) ∨
        (i ∉ CanvTwoBotLayers Points spacing ∧
         i ∈ CanvMinusTwoBotLayers Points spacing)) ∧
      (∀ i : Nat, i ∈ CanvTwoBotLayers Points spacing ↔
        i < Points.length ∧ (Points.getD i ⟨0, 0, 0⟩).x2 < 1.5 * spacing) := by
  intro Points cr r sp
  refine ⟨sorted_filterRange _ _, sorted_filterRange _ _, ?_, ?_,
    sorted_filterRange _ _, sorted_filterRange _ _, ?_, ?_⟩
  · intro i hi
    by_cases hP : i ∈ CoreLayers Points cr r
    · exact Or.inl ⟨hP, by simp [CanvasMinusCoreLayers, List.mem_filter, hP]⟩
    · exact Or.inr ⟨hP,
        by simp [CanvasMinusCoreLayers, List.mem_filter, List.mem_range, hP, hi]⟩
  · intro i
    simp [CoreLayers, List.mem_filter, List.mem_range, and_comm]
  · intro i hi
    by_cases hP : i ∈ CanvTwoBotLayers Points sp
    · exact Or.inl ⟨hP, by simp [CanvMinusTwoBotLayers, List.mem_filter, hP]⟩
    · exact Or.inr ⟨hP,
        by simp [CanvMinusTwoBotLayers, List.mem_filter, List.mem_range, hP, hi]⟩
  · intro i
    simp [CanvTwoBotLayers, List.mem_filter, List.mem_range, and_comm]

/-! ## C10: the RIPE error-maximization refinement loop

Exact functional model of the loop body of the isothermal-CSTR notebook
(cell 12).  The external `isotsim.sim` and `ripe.ems` routines are
parameters (`sim0 p` stands for `isotsim.sim(p)[0]`; the `ems` parameter
receives everything the source passes to `ripe.ripemodel`/`ripe.ems`).
Matrices are lists of rational rows. -/

/-- A data row (one concentration vector). -/
abbrev Row := List ℚ

/-- A data matrix (one row per data point). -/
abbrev Mat := List Row

/-- `noise = 0.1` (cell 2). -/
def noise : ℚ := 1 / 10

/-- `ns = 5  # number of species` (cell 2). -/
def ns : Nat := 5

/-- `cdata0 = [[1, 1, 0, 0, 0], [10, 10, 0, 0, 0]]` (cell 2), the initial
value of `cdata0`. -/
def cdata0Init : Mat := [[1, 1, 0, 0, 0], [10, 10, 0, 0, 0]]

/-- `nd = len(cdata0)` (cell 2). -/
def nd : Nat := cdata0Init.length

/-- `np.zeros([r, c])`. -/
def npZeros (r c : Nat) : Mat := List.replicate r (List.replicate c 0)

/-- The numpy slice assignment `dst[:-1][:] = src[:][:]`: the rows of
`src` overwrite the initial rows of `dst` (numpy requires
`len(src) = len(dst) - 1`, which the loop invariant supplies). -/
def assignInitRows (dst src : Mat) : Mat := src ++ dst.drop src.length

/-- The element loop `for j in range(len(src)): dst[j] = src[j]` on a row
(also the row slice assignment `dst[:] = src[:]` when lengths agree). -/
def assignRowInit (dst src : Row) : Row := src ++ dst.drop src.length

/-- Assignment into the last row, `dst[-1][j] = src[j]` for
`j in range(len(src))`. -/
def assignLastRow (dst : Mat) (src : Row) : Mat :=
  dst.dropLast ++ [assignRowInit (dst.getLastD []) src]

/-- `np.multiply(c, M)` elementwise. -/
def scaleM (c : ℚ) (M : Mat) : Mat := M.map (fun row => row.map (fun v => c * v))

/-- The mutable state of the refinement loop, named as in the source. -/
structure RipeState where
  ite : Nat
  cdata0 : Mat
  cdata : Mat
  sigma : Mat
  new_points : Row
  new_res : Row
  err : Row
  deriving DecidableEq, Repr

/-- One execution of the `while any(err > ...)` body (cell 12):

    ite += 1
    new_cdata0 = np.zeros([nd + ite, ns])
    new_cdata = np.zeros([nd + ite, ns])
    new_cdata0[:-1][:] = cdata0[:][:]
    new_cdata[:-1][:] = cdata[:][:]
    new_cdata0[-1][:] = new_points[:]
    res = isotsim.sim(new_points)[0]
    for j in range(len(res)): new_cdata[-1][j] = res[j]
    sigma = np.multiply(noise**2, np.array(new_cdata))
    results = ripe.ripemodel(new_cdata, ..., x0=new_cdata0, sigma=sigma, ...)
    [new_points, err] = ripe.ems(results, isotsim.sim, lb_conc, ub_conc, 5,
                                 x=cdata, x0=cdata0)
    new_res = isotsim.sim(new_points)[0]
    cdata0 = new_cdata0
    cdata = new_cdata

`ems` is given the pre-update state and the new arrays, covering every
datum the library calls can see. -/
def refinementStep (sim0 : Row → Row)
    (ems : RipeState → Mat → Mat → Mat → Row × Row) (s : RipeState) : RipeState :=
  let it := s.ite + 1
  let new_cdata0 := npZeros (nd + it) ns
  let new_cdata := npZeros (nd + it) ns
  let new_cdata0 := assignInitRows new_cdata0 s.cdata0
  let new_cdata := assignInitRows new_cdata s.cdata
  let new_cdata0 := assignLastRow new_cdata0 s.new_points
  let res := sim0 s.new_points
  let new_cdata := assignLastRow new_cdata res
  let sg := scaleM (noise ^ 2) new_cdata
  let pe := ems s new_cdata0 new_cdata sg
  { ite := it, cdata0 := new_cdata0, cdata := new_cdata, sigma := sg,
    new_points := pe.1, new_res := sim0 pe.1, err := pe.2 }

/-- The state after `k` executions of the loop body. -/
def refinementIter (sim0 : Row → Row)
    (ems : RipeState → Mat → Mat → Mat → Row × Row) :
    Nat → RipeState → RipeState
  | 0, s => s
  | k + 1, s => refinementStep sim0 ems (refinementIter sim0 ems k s)

/-- Every row of the matrix has `ns` entries. -/
def rowsLen (M : Mat) : Prop := ∀ r ∈ M, r.length = ns

/-- The loop invariant: the data arrays hold `nd + ite` rows of `ns`
entries each, and the pending sample point has `ns` entries. -/
def RipeInv (s : RipeState) : Prop :=
  s.cdata0.length = nd + s.ite ∧ s.cdata.length = nd + s.ite ∧
  rowsLen s.cdata0 ∧ rowsLen s.cdata ∧ s.new_points.length = ns

/-- Overwriting the initial rows of a zero matrix with one row less
appends a zero row. -/
theorem assignInitRows_zeros (M : Mat) (c : Nat) :
    assignInitRows (npZeros (M.length + 1) c) M = M ++ [List.replicate c 0] := by
  simp [assignInitRows, npZeros, List.drop_replicate]

/-- Assigning the last row of `M ++ [zr]` rewrites only `zr`. -/
theorem assignLastRow_concat (M : Mat) (zr src : Row) :
    assignLastRow (M ++ [zr]) src = M ++ [assignRowInit zr src] := by
  simp [assignLastRow]

/-- A full-width row assignment replaces the row. -/
theorem assignRowInit_full (zr src : Row) (h : src.length = zr.length) :
    assignRowInit zr src = src := by
  simp [assignRowInit, h, List.drop_length]

/-- Characterization of one body execution under the loop invariant: the
new arrays are the old ones with the sampled point (resp. its simulated
result) appended, and `sigma` is the refreshed weight matrix. -/
theorem refinementStep_eq (sim0 : Row → Row)
    (ems : RipeState → Mat → Mat → Mat → Row × Row)
    (hsim : ∀ p : Row, (sim0 p).length = ns)
    (s : RipeState) (hInv : RipeInv s) :
    refinementStep sim0 ems s =
      { ite := s.ite + 1,
        cdata0 := s.cdata0 ++ [s.new_points],
        cdata := s.cdata ++ [sim0 s.new_points],
        sigma := scaleM (noise ^ 2) (s.cdata ++ [sim0 s.new_points]),
        new_points := (ems s (s.cdata0 ++ [s.new_points])
          (s.cdata ++ [sim0 s.new_points])
          (scaleM (noise ^ 2) (s.cdata ++ [sim0 s.new_points]))).1,
        new_res := sim0 (ems s (s.cdata0 ++ [s.new_points])
          (s.cdata ++ [sim0 s.new_points])
          (scaleM (noise ^ 2) (s.cdata ++ [sim0 s.new_points]))).1,
        err := (ems s (s.cdata0 ++ [s.new_points])
          (s.cdata ++ [sim0 s.new_points])
          (scaleM (noise ^ 2) (s.cdata ++ [sim0 s.new_points]))).2 } := by
  obtain ⟨h0, h1, hr0, hr1, hnp⟩ := hInv
  have e0 : assignInitRows (npZeros (nd + (s.ite + 1)) ns) s.cdata0
      = s.cdata0 ++ [List.replicate ns 0] := by
    have h : nd + (s.ite + 1) = s.cdata0.length + 1 := by omega
    rw [h, assignInitRows_zeros]
  have e1 : assignInitRows (npZeros (nd + (s.ite + 1)) ns) s.cdata
      = s.cdata ++ [List.replicate ns 0] := by
    have h : nd + (s.ite + 1) = s.cdata.length + 1 := by omega
    rw [h, assignInitRows_zeros]
  have f0 : assignRowInit (List.replicate ns 0) s.new_points = s.new_points :=
    assignRowInit_full _ _ (by simp [hnp])
  have f1 : assignRowInit (List.replicate ns 0) (sim0 s.new_points) = sim0 s.new_points :=
    assignRowInit_full _ _ (by simp [hsim s.new_points])
  simp only [refinementStep, e0, e1, assignLastRow_concat, f0, f1]

/-- The loop invariant is preserved by one body execution. -/
theorem refinementStep_inv (sim0 : Row → Row)
    (ems : RipeState → Mat → Mat → Mat → Row × Row)
    (hsim : ∀ p : Row, (sim0 p).length = ns)
    (hems : ∀ s n0 n1 sg, (ems s n0 n1 sg).1.length = ns)
    (s : RipeState) (hInv : RipeInv s) : RipeInv (refinementStep sim0 ems s) := by
  have heq := refinementStep_eq sim0 ems hsim s hInv
  obtain ⟨h0, h1, hr0, hr1, hnp⟩ := hInv
  rw [heq]
  refine ⟨?_, ?_, ?_, ?_, ?_⟩
  · simp [h0]; omega
  · simp [h1]; omega
  · intro r hr
    rcases List.mem_append.mp hr with h | h
    · exact hr0 r h
    · simp at h
      subst h
      exact hnp
  · intro r hr
    rcases List.mem_append.mp hr with h | h
    · exact hr1 r h
    · simp at h
      subst h
      exact hsim s.new_points
  · exact hems _ _ _ _

/-- The loop invariant holds after any number of body executions. -/
theorem refinementIter_inv (sim0 : Row → Row)
    (ems : RipeState → Mat → Mat → Mat → Row × Row)
    (hsim : ∀ p : Row, (sim0 p).length = ns)
    (hems : ∀ s n0 n1 sg, (ems s n0 n1 sg).1.length = ns)
    (s0 : RipeState) (hInv : RipeInv s0) :
    ∀ k : Nat, RipeInv (refinementIter sim0 ems k s0) := by
  intro k
  induction k with
  | zero => exact hInv
  | succ k ih => exact refinementStep_inv sim0 ems hsim hems _ ih

/-- C10: in the isothermal-CSTR refinement loop, started from the
notebook's initial data (two `ns`-entry data points, so `nd = 2`), after
the body has executed `ite = k + 1` times: `cdata0` and `cdata` hold
`nd + ite` rows; their first `nd + ite - 1` rows are exactly the previous
arrays' rows in order; the last row of `cdata0` is the sample point the
previous `ripe.ems` call returned, the last row of `cdata` is its
simulated result `isotsim.sim(new_points)[0]`; and `sigma` equals
`noise^2` times `cdata` elementwise.  This holds for every behaviour of
the external `isotsim.sim` and `ripe.ems` routines that returns
`ns`-entry vectors. -/
theorem c10_refinement_invariant :
    ∀ (sim0 : Row → Row) (ems : RipeState → Mat → Mat → Mat → Row × Row)
      (s0 : RipeState),
      (∀ p : Row, (sim0 p).length = ns) →
      (∀ s n0 n1 sg, (ems s n0 n1 sg).1.length = ns) →
      s0.ite = 0 → s0.cdata0 = cdata0Init → s0.cdata.length = nd →
      rowsLen s0.cdata → s0.new_points.length = ns →
      ∀ k : Nat,
        (refinementIter sim0 ems (k + 1) s0).ite = k + 1 ∧
        (refinementIter sim0 ems (k + 1) s0).cdata0.length = nd + (k + 1) ∧
        (refinementIter sim0 ems (k + 1) s0).cdata.length = nd + (k + 1) ∧
        (refinementIter sim0 ems (k + 1) s0).cdata0 =
          (refinementIter sim0 ems k s0).cdata0 ++
            [(refinementIter sim0 ems k s0).new_points] ∧
        (refinementIter sim0 ems (k + 1) s0).cdata =
          (refinementIter sim0 ems k s0).cdata ++
            [sim0 ((refinementIter sim0 ems k s0).new_points)] ∧
        (refinementIter sim0 ems (k + 1) s0).sigma =
          scaleM (noise ^ 2) ((refinementIter sim0 ems (k + 1) s0).cdata) := by
  intro sim0 ems s0 hsim hems hite hc0 hc1 hrl hnp k
  have hInv0 : RipeInv s0 := by
    refine ⟨?_, ?_, ?_, ?_, hnp⟩
    · rw [hc0, hite]
      decide
    · rw [hc1, hite]
      omega
    · rw [hc0]
      show ∀ r ∈ cdata0Init, r.length = ns
      decide
    · exact hrl
  have hIter : ∀ j : Nat, (refinementIter sim0 ems j s0).ite = j := by
    intro j
    induction j with
    | zero => exact hite
    | succ j ih =>
      have heq := refinementStep_eq sim0 ems hsim _
        (refinementIter_inv sim0 ems hsim hems s0 hInv0 j)
      show (refinementStep sim0 ems (refinementIter sim0 ems j s0)).ite = j + 1
      rw [heq, ih]
  have hInvK := refinementIter_inv sim0 ems hsim hems s0 hInv0 k
  have hInvK1 := refinementIter_inv sim0 ems hsim hems s0 hInv0 (k + 1)
  have heq := refinementStep_eq sim0 ems hsim _ hInvK
  have hstep : refinementIter sim0 ems (k + 1) s0 =
      refinementStep sim0 ems (refinementIter sim0 ems k s0) := rfl
  refine ⟨hIter (k + 1), ?_, ?_, ?_, ?_, ?_⟩
  · have := hInvK1.1
    rw [hIter (k + 1)] at this
    exact this
  · have := hInvK1.2.1
    rw [hIter (k + 1)] at this
    exact this
  · rw [hstep, heq]
  · rw [hstep, heq]
  · rw [hstep, heq]

/-- A length-preserving stand-in for `isotsim.sim` used by the C10
witness. -/
def simW : Row → Row := fun _ => [0, 0, 0, 0, 0]

/-- A stand-in for `ripe.ems` returning an `ns`-entry point, used by the
C10 witness. -/
def emsW : RipeState → Mat → Mat → Mat → Row × Row :=
  fun _ _ _ _ => ([0, 0, 0, 0, 0], [])

/-- The loop state at the notebook's loop entry, used by the C10
witness. -/
def s0W : RipeState :=
  { ite := 0, cdata0 := cdata0Init,
    cdata := [[0, 0, 0, 0, 0], [0, 0, 0, 0, 0]],
    sigma := [], new_points := [0, 0, 0, 0, 0], new_res := [], err := [] }

/-- C10 witness: after the first body execution from the concrete initial
state, `cdata0` is the previous array with the previous sample point
appended. -/
theorem c10_refinement_invariant_witness :
    (refinementIter simW emsW 1 s0W).cdata0 =
      (refinementIter simW emsW 0 s0W).cdata0 ++
        [(refinementIter simW emsW 0 s0W).new_points] :=
  (c10_refinement_invariant simW emsW s0W (fun _ => rfl) (fun _ _ _ _ => rfl)
    rfl rfl rfl
    (by
      show ∀ r ∈ s0W.cdata, r.length = ns
      decide)
    rfl 0).2.2.2.1
